import Mathlib

/-!
# CullAI results page: the sharp / blurry partition

A shallow embedding of the store logic of `src/results.js`: the two globals
`window.__CULLAI_ORIGINAL__` (Original Snapshot) and `window.__CULLAI_RESULTS__`
(Current View), the flat list of the keyboard navigator, and the functions
`applyLiveThreshold`, `applyFilters`, `moveImage` and `rebuildFlatList` that
read and write them; further the listeners of the page (keys, card click,
compare, download, label and star gestures), the summary texts, and start-up
from storage (`getStoredData`, `loadResults`, the remembered threshold); and
of `src/script.js` the upload validation (`validateFiles`, `handleFiles`).

Conventions of the embedding.

* A JavaScript array is a `List`; `push` appends at the end, the spread
  `[...a, ...b]` is `a ++ b`, `filter` is `List.filter`, and a `forEach` that
  pushes into an accumulator is a left fold over the array.
* A global that may still be `undefined` is an `Option`; a call that would raise
  a `TypeError` on it returns `none`.
* `renderResults` and `setTimeout(enable3DTilt, _)` only touch the DOM; they
  write none of the globals modelled here. `renderResults` ends in a
  `ReferenceError`: after its two loops, results.js 251 reads `img`, which no
  enclosing scope declares. In `applyLiveThreshold`, `applyFilters`, `moveImage`
  and the space clause of the key listener the call is the last statement that
  could touch the modelled state, every write precedes it, and their models
  give the state those writes leave. In `loadResults` the call precedes
  `rebuildFlatList()`, so there it is modelled (`renderResults`) and ends the
  function.
* A listener that can end in an exception returns an `Outcome`, which keeps the
  state written before the exception.
* An identifier that no scope of the file declares raises a `ReferenceError`
  where it is read (`image` in the star and label listeners, `img` in
  `renderResults`).
* Calls that only report to the user are kept as logs in the state: `toasts` for
  `UI.showToast`, `saves` for the links clicked by `downloadImages`.
* Scores, thresholds and ratings are integers: the upload page stores
  `Math.floor(Math.random() * 100)` as score, the range slider and the rating
  select hold numerals, and `>=` / `<` between a number and such a string
  compare numerically.
-/

namespace CullAI

/-- Image Record as stored by the upload page and normalised by `loadResults`:
`score` is `none` when the property is missing (`undefined`), `label` is `none`
for `null`. -/
structure ImageRecord where
  src : String
  name : String
  score : Option Int
  rating : Nat
  label : Option String
deriving DecidableEq, Repr

/-- The object shape `{ sharp: [...], blurry: [...] }`. -/
structure Snapshot where
  sharp : List ImageRecord
  blurry : List ImageRecord
deriving DecidableEq, Repr

/-- The two bucket names accepted as `target` by `moveImage`. -/
inductive Bucket where
  | sharp
  | blurry
deriving DecidableEq, Repr

/-- Elements of the lightbox written by `openLightbox` and `closeLightbox`. -/
structure Lightbox where
  /-- Whether `lightbox.classList` contains `"hidden"`. -/
  hidden : Bool
  /-- Attribute `lightboxImg.src`. -/
  src : String
  /-- Text of `lightboxName`. -/
  name : String
  /-- Score printed in `lightboxScore`; `none` for the empty text. -/
  score : Option Int
deriving DecidableEq, Repr

/-- Elements of the compare overlay written by `openCompare` and `closeCompare`; a
caption is the name and the score printed in it. -/
structure CompareOverlay where
  /-- Whether `compareOverlay.classList` contains `"hidden"`. -/
  hidden : Bool
  /-- Attribute `compareImg1.src`. -/
  img1 : String
  /-- Attribute `compareImg2.src`. -/
  img2 : String
  /-- Name and score printed in `compareMeta1`. -/
  caption1 : String × Option Int
  /-- Name and score printed in `compareMeta2`. -/
  caption2 : String × Option Int
deriving DecidableEq, Repr

/-- One browser save triggered by `downloadImages`: the link target and the file name. -/
structure Save where
  href : String
  download : String
deriving DecidableEq, Repr

/-- Page state of `results.js` that the store functions read or write. -/
structure State where
  /-- Global `window.__CULLAI_ORIGINAL__`. -/
  original : Option Snapshot
  /-- Global `window.__CULLAI_RESULTS__`. -/
  results : Option Snapshot
  /-- Module variable `flatImageList`. -/
  flatImageList : List ImageRecord
  /-- Module variable `activeIndex`. -/
  activeIndex : Int
  /-- Module constant `selectedImages` (a `Set` of source references, in insertion order). -/
  selectedImages : List String
  /-- Numeric value of `liveThresholdSlider.value`. -/
  liveThresholdSlider : Int
  /-- Numeric value of `ratingFilter.value`. -/
  ratingFilter : Nat
  /-- String `labelFilter.value`. -/
  labelFilter : String
  /-- The lightbox elements. -/
  lightbox : Lightbox := { hidden := true, src := "", name := "", score := none }
  /-- The compare overlay elements. -/
  compareOverlay : CompareOverlay :=
    { hidden := true, img1 := "", img2 := "", caption1 := ("", none), caption2 := ("", none) }
  /-- Calls of `UI.showToast(message, type)` so far, oldest first. -/
  toasts : List (String × String) := []
  /-- Saves triggered by `downloadImages` so far, oldest first. -/
  saves : List Save := []
deriving DecidableEq, Repr

/-- JavaScript `score >= threshold` on a possibly missing score: a comparison with
`undefined` is `false`. -/
def scoreGe (score : Option Int) (threshold : Int) : Bool :=
  match score with
  | some v => decide (threshold ≤ v)
  | none => false

/-- Body of the `forEach` callback in `applyLiveThreshold` (results.js 388-394). -/
def bucketStep (threshold : Int) (updated : Snapshot) (img : ImageRecord) : Snapshot :=
  if scoreGe img.score threshold then
    { updated with sharp := updated.sharp ++ [img] }
  else
    { updated with blurry := updated.blurry ++ [img] }

/-- Function `applyLiveThreshold(threshold)` (results.js 379-401). -/
def applyLiveThreshold (threshold : Int) (st : State) : State :=
  match st.original with
  | none => st
  | some original =>
    let updated : Snapshot :=
      (original.sharp ++ original.blurry).foldl (bucketStep threshold) { sharp := [], blurry := [] }
    { st with results := some updated }

/-- Body of the `forEach` callback in `applyFilters` (results.js 643-651): the two early
`return`s skip the record, `img.label !== label` is inequality of a label (or `null`)
with the filter string. -/
def filterStep (minRating : Nat) (label : String) (sliderValue : Int)
    (filtered : Snapshot) (img : ImageRecord) : Snapshot :=
  if img.rating < minRating then filtered
  else if label ≠ "all" ∧ img.label ≠ some label then filtered
  else if scoreGe img.score sliderValue then
    { filtered with sharp := filtered.sharp ++ [img] }
  else
    { filtered with blurry := filtered.blurry ++ [img] }

/-- Function `applyFilters()` (results.js 636-655); `none` is the `TypeError` raised by
`original.sharp` when the snapshot global is still `undefined`. -/
def applyFilters (st : State) : Option State :=
  let minRating := st.ratingFilter
  let label := st.labelFilter
  match st.original with
  | none => none
  | some original =>
    let filtered : Snapshot :=
      (original.sharp ++ original.blurry).foldl
        (filterStep minRating label st.liveThresholdSlider) { sharp := [], blurry := [] }
    some { st with results := some filtered }

/-- Property read `original[target]` for a bucket name. -/
def Snapshot.get (s : Snapshot) (target : Bucket) : List ImageRecord :=
  match target with
  | Bucket.sharp => s.sharp
  | Bucket.blurry => s.blurry

/-- Statement `original[target].push(image)`. -/
def Snapshot.push (s : Snapshot) (target : Bucket) (image : ImageRecord) : Snapshot :=
  match target with
  | Bucket.sharp => { s with sharp := s.sharp ++ [image] }
  | Bucket.blurry => { s with blurry := s.blurry ++ [image] }

/-- Function `moveImage(image, target)` (results.js 554-566) for a record `image` and a
`target` in the two bucket names; the threshold re-applied is the slider value. -/
def moveImage (image : ImageRecord) (target : Bucket) (st : State) : State :=
  match st.original with
  | none => st
  | some original =>
    let original1 : Snapshot :=
      { original with sharp := original.sharp.filter (fun i => i.src != image.src) }
    let original2 : Snapshot :=
      { original1 with blurry := original1.blurry.filter (fun i => i.src != image.src) }
    let original3 := original2.push target image
    applyLiveThreshold st.liveThresholdSlider { st with original := some original3 }

/-- Function `rebuildFlatList()` (results.js 478-484); `none` is the `TypeError` raised
when the view global is still `undefined`. -/
def rebuildFlatList (st : State) : Option State :=
  match st.results with
  | none => none
  | some results => some { st with flatImageList := results.sharp ++ results.blurry }

/-- Listener of the slider `input` event (results.js 410-423): the control holds the new
value and `applyLiveThreshold` is called with it. -/
def sliderInput (value : Int) (st : State) : State :=
  applyLiveThreshold value { st with liveThresholdSlider := value }

/-! ## Handlers of the results page -/

/-- How a handler ended: it returned, or an exception (`TypeError`, `ReferenceError`)
left it; either way with the state written so far. -/
inductive Outcome where
  | returned (st : State)
  | threw (st : State)
deriving DecidableEq, Repr

/-- State a handler leaves behind. -/
def Outcome.state : Outcome → State
  | Outcome.returned st => st
  | Outcome.threw st => st

/-- Array read `xs[i]` for an integer `i`: `none` is `undefined`. -/
def jsIndex (xs : List ImageRecord) (i : Int) : Option ImageRecord :=
  if 0 ≤ i then xs[i.toNat]? else none

/-- Method `selectedImages.has(src)`. -/
def setHas (selected : List String) (src : String) : Bool := selected.contains src

/-- Property `selectedImages.size`: the number of distinct members. -/
def setSize (selected : List String) : Nat := selected.dedup.length

/-- Branch `if (selectedImages.has(src)) selectedImages.delete(src) else
selectedImages.add(src)` shared by the card click listener and the space key. -/
def toggleSelected (src : String) (selected : List String) : List String :=
  if setHas selected src then selected.filter (fun x => x != src) else selected ++ [src]

/-- Listener of the card `click` event in `createPhotoCard` (results.js 92-103) for the
card of source reference `src`. -/
def cardClick (src : String) (st : State) : State :=
  { st with selectedImages := toggleSelected src st.selectedImages }

/-- Function `openLightbox(src, name, score)` (results.js 351-358). -/
def openLightbox (src : String) (name : String) (score : Option Int) (st : State) : State :=
  { st with lightbox := { hidden := false, src := src, name := name, score := score } }

/-- Function `closeLightbox()` (results.js 360-363). -/
def closeLightbox (st : State) : State :=
  { st with lightbox := { st.lightbox with hidden := true, src := "" } }

/-- The two arrow clauses after the assignment to `activeIndex` (results.js 497-501 and
508-512): reading `.src` of a missing element raises a `TypeError`. -/
def openActive (st : State) : Outcome :=
  match jsIndex st.flatImageList st.activeIndex with
  | none => Outcome.threw st
  | some img => Outcome.returned (openLightbox img.src img.name img.score st)

/-- Main `keydown` listener (results.js 486-552) for `e.key = key`. The remainder `%`
truncates towards zero. The constant `current` is declared in the clause of the space
key; the clauses of `s`, `b`, the digits and `g`, `y`, `r` are entered past that
declaration and read it uninitialised, which raises a `ReferenceError`. -/
def keydown (key : String) (st : State) : Outcome :=
  if !st.lightbox.hidden then
    if key = "Escape" then Outcome.returned (closeLightbox st) else Outcome.returned st
  else if st.flatImageList.length = 0 then Outcome.returned st
  else
    match key with
    | "ArrowRight" =>
      openActive { st with
        activeIndex := Int.tmod (st.activeIndex + 1) st.flatImageList.length }
    | "ArrowLeft" =>
      openActive { st with
        activeIndex :=
          Int.tmod (st.activeIndex - 1 + st.flatImageList.length) st.flatImageList.length }
    | " " =>
      match jsIndex st.flatImageList st.activeIndex with
      | none => Outcome.returned st
      | some current =>
        Outcome.returned { st with
          selectedImages := toggleSelected current.src st.selectedImages }
    | "s" | "S" | "b" | "B" => Outcome.threw st
    | "1" | "2" | "3" | "4" | "5" => Outcome.threw st
    | "g" | "G" | "y" | "Y" | "r" | "R" => Outcome.threw st
    | _ => Outcome.returned st

/-- Function `openCompare(img1, img2)` (results.js 591-601) for two array reads that may
be `undefined`: reading `.src` of `undefined` raises a `TypeError`, for `img2` after
`compareImg1.src` was written. -/
def openCompare (img1 img2 : Option ImageRecord) (st : State) : Outcome :=
  match img1 with
  | none => Outcome.threw st
  | some i1 =>
    let st1 : State := { st with compareOverlay := { st.compareOverlay with img1 := i1.src } }
    match img2 with
    | none => Outcome.threw st1
    | some i2 =>
      Outcome.returned { st1 with
        compareOverlay :=
          { hidden := false, img1 := i1.src, img2 := i2.src,
            caption1 := (i1.name, i1.score), caption2 := (i2.name, i2.score) } }

/-- Function `closeCompare()` (results.js 603-605). -/
def closeCompare (st : State) : State :=
  { st with compareOverlay := { st.compareOverlay with hidden := true } }

/-- Listener of the compare button (results.js 572-588). -/
def compareClick (st : State) : Outcome :=
  if setSize st.selectedImages ≠ 2 then
    Outcome.returned { st with
      toasts := st.toasts ++ [("Select exactly 2 images to compare", "info")] }
  else
    match st.results with
    | none => Outcome.threw st
    | some results =>
      let allImages := results.sharp ++ results.blurry
      let selected := allImages.filter (fun img => setHas st.selectedImages img.src)
      openCompare selected[0]? selected[1]? st

/-- Function `downloadImages(images, folderName)` (results.js 130-142) for an array
`images`: one save per element, named by the record or, for an empty name, by folder
and position. -/
def downloadImages (images : List ImageRecord) (folderName : String) (st : State) : State :=
  if images.length = 0 then st
  else
    { st with
      saves := st.saves ++ images.enum.map (fun p =>
        { href := p.2.src,
          download :=
            if p.2.name = "" then folderName ++ "_" ++ toString (p.1 + 1) ++ ".jpg"
            else p.2.name }) }

/-- Listener of the download-selected button (results.js 430-446). -/
def downloadSelectedClick (st : State) : State :=
  if setSize st.selectedImages = 0 then
    { st with toasts := st.toasts ++ [("No images selected", "error")] }
  else
    let sharp := match st.results with
      | some results => results.sharp
      | none => []
    let blurry := match st.results with
      | some results => results.blurry
      | none => []
    let allImages := sharp ++ blurry
    let toDownload := allImages.filter (fun img => setHas st.selectedImages img.src)
    downloadImages toDownload "CullAI_Selected" st

/-- Text written to `summaryAverage`: the dash, or the computed average, `none` being
`NaN`. -/
inductive AverageText where
  | dash
  | value (avg : Option Int)
deriving DecidableEq, Repr

/-- Numbers printed by `updateSummary` in `summaryCounts`, and its average text. -/
structure SummaryText where
  total : Nat
  sharp : Nat
  blurry : Nat
  average : AverageText
deriving DecidableEq, Repr

/-- Expression `all.reduce((sum, img) => sum + img.score, 0)`; adding a missing score
gives `NaN`, here `none`. Integer addition is that of the source as long as every
partial sum is below `2 ^ 53` in absolute value. -/
def sumScores (all : List ImageRecord) : Option Int :=
  all.foldl
    (fun sum img =>
      match sum, img.score with
      | some a, some b => some (a + b)
      | _, _ => none)
    (some 0)

/-- Expression `Math.round(sum / total)` for an integer `sum` and a positive count
`total`: the nearest integer, a half rounding up. This is the value the source computes
in double arithmetic when `sum` and `total` are small (for scores from 0 to 100 and
fewer than `2 ^ 32` records, the largest array, the quotient is at most 100 and differs
from a half-integer by 0 or by more than `2 ^ -33`, far above the rounding error of the
division); it is used only under such a bound. -/
def mathRoundDiv (sum : Int) (total : Nat) : Int := (2 * sum + total) / (2 * total)

/-- Function `updateSummary()` (results.js 663-682), as the texts it writes; `none` when
it returns at `if (!r)`. -/
def updateSummary (st : State) : Option SummaryText :=
  match st.results with
  | none => none
  | some r =>
    let all := r.sharp ++ r.blurry
    let total := all.length
    let avg : Option Int :=
      if total > 0 then (sumScores all).map (fun sum => mathRoundDiv sum total) else some 0
    some
      { total := total, sharp := r.sharp.length, blurry := r.blurry.length,
        average := if total ≠ 0 then AverageText.value avg else AverageText.dash }

/-- Numbers printed by `updateStats`, and whether the selection chip is hidden. -/
structure StatsText where
  total : Nat
  sharp : Nat
  blurry : Nat
  selected : Nat
  chipHidden : Bool
deriving DecidableEq, Repr

/-- Function `updateStats()` (results.js 452-470), as the texts it writes. -/
def updateStats (st : State) : Option StatsText :=
  match st.results with
  | none => none
  | some results =>
    let total := results.sharp.length + results.blurry.length
    some
      { total := total, sharp := results.sharp.length, blurry := results.blurry.length,
        selected := setSize st.selectedImages,
        chipHidden := !decide (setSize st.selectedImages > 0) }

/-- Constant `order` of the label listener (results.js 622). -/
def labelOrder : List (Option String) := [none, some "green", some "yellow", some "red"]

/-- Method `order.indexOf(label)`: `-1` when `label` is no element. -/
def orderIndexOf (label : Option String) : Int :=
  if label ∈ labelOrder then (labelOrder.indexOf label : Nat) else -1

/-- Expression `order[(order.indexOf(image.label) + 1) % order.length]` (results.js
623-624). -/
def nextLabel (label : Option String) : Option String :=
  (labelOrder[(Int.tmod (orderIndexOf label + 1) labelOrder.length).toNat]?).getD none

/-- Listener of the `contextmenu` event (results.js 619-628), run on the page. Its body
reads `image.label` first, and `image` is declared in no scope of the file, so it ends
in a `ReferenceError` before `image.label = next`; nothing is written. (The statement
that binds the listener is itself a top-level statement on `card`, which is declared
only inside `createPhotoCard`, so the listener is not bound to any card either.) -/
def contextmenu (st : State) : Outcome := Outcome.threw st

/-- Listener of the star `click` event (results.js 115-119) for star `i`: the statement
`image.rating = i` reads `image`, declared in no scope of the file, and ends in a
`ReferenceError`; nothing is written. -/
def starClick (_i : Nat) (st : State) : Outcome := Outcome.threw st

/-- Function `renderResults({ sharp, blurry })` (results.js 225-260) on the modelled
state: it draws the cards, then line 251 reads `img`, declared in no enclosing scope,
and ends in a `ReferenceError`; `updateStats()` and `updateSummary()` below are not
reached. It writes none of the globals. -/
def renderResults (st : State) : Outcome := Outcome.threw st

/-! ## Storage and start-up -/

/-- A record as found in the stored JSON: rating and label may be missing. -/
structure StoredRecord where
  src : String
  name : String
  score : Option Int
  rating : Option Nat
  label : Option String
deriving DecidableEq, Repr

/-- Value parsed from the stored JSON: `null`, or an object whose `sharp` and `blurry`
properties are arrays of records or missing (`none`). A number, string or boolean has
neither property and behaves as the object with both missing. -/
inductive StoredValue where
  | null
  | object (sharp blurry : Option (List StoredRecord))
deriving DecidableEq, Repr

/-- What `localStorage.getItem("cullaiResults")` holds: nothing, text that is not JSON,
or the JSON text of a value. -/
inductive StorageItem where
  | absent
  | malformed
  | json (value : StoredValue)
deriving DecidableEq, Repr

/-- Function `getStoredData(key)` (results.js 61-67): `JSON.parse(null)` is `null`, and a
parse error is caught and gives `null`. -/
def getStoredData (item : StorageItem) : StoredValue :=
  match item with
  | StorageItem.absent => StoredValue.null
  | StorageItem.malformed => StoredValue.null
  | StorageItem.json value => value

/-- Callback of the first loop of `loadResults` (results.js 189-190): `img.rating ||
0` and `img.label || null`, the empty string being falsy. -/
def normalise (img : StoredRecord) : ImageRecord :=
  { src := img.src, name := img.name, score := img.score,
    rating := img.rating.getD 0,
    label := match img.label with
      | some "" => none
      | other => other }

/-- A record built by `getMockResults`: it has a source and a name and no other
property. -/
structure MockRecord where
  src : String
  name : String
deriving DecidableEq, Repr

/-- The object returned by `getMockResults`. -/
structure MockResults where
  sharp : List MockRecord
  blurry : List MockRecord
deriving DecidableEq, Repr

/-- Function `getMockResults()` (results.js 151-170). -/
def getMockResults : MockResults :=
  let sampleImages : List String :=
    [ "https://images.unsplash.com/photo-1500530855697-b586d89ba3ee",
      "https://images.unsplash.com/photo-1501785888041-af3ef285b470",
      "https://images.unsplash.com/photo-1470770903676-69b98201ea1c",
      "https://images.unsplash.com/photo-1441974231531-c6227db76b6e",
      "https://images.unsplash.com/photo-1445820200644-69f87d946277" ]
  { sharp := (sampleImages.take 3).enum.map (fun p =>
      { src := p.2, name := "Sharp_" ++ toString (p.1 + 1) ++ ".jpg" }),
    blurry := (sampleImages.drop 3).enum.map (fun p =>
      { src := p.2, name := "Blurry_" ++ toString (p.1 + 1) ++ ".jpg" }) }

/-- Statement `[...results.sharp, ...results.blurry].forEach(...)` of `loadResults`
(results.js 188-191): `none` is the `TypeError` raised by reading a property of `null`
or by spreading `undefined`; otherwise the records are normalised in place. -/
def normaliseStored (results : StoredValue) : Option Snapshot :=
  match results with
  | StoredValue.null => none
  | StoredValue.object none _ => none
  | StoredValue.object (some _) none => none
  | StoredValue.object (some sharp) (some blurry) =>
    some { sharp := sharp.map normalise, blurry := blurry.map normalise }

/-- Condition `!results || !results.sharp || !results.blurry` (results.js 194); an array,
even an empty one, is truthy. -/
def lacksBuckets (results : StoredValue) : Bool :=
  match results with
  | StoredValue.null => true
  | StoredValue.object none _ => true
  | StoredValue.object (some _) none => true
  | StoredValue.object (some _) (some _) => false

/-- Function `loadResults()` (results.js 177-211). The loop of lines 188-191 comes
first and raises a `TypeError` unless both arrays are present. The fallback test of
line 194 is therefore evaluated only on an object with both arrays, where it is false
(`lacksBuckets` is `false` whenever `normaliseStored` succeeds), so `getMockResults()`
is not called on any path. Lines 199-200 write the two globals, `renderResults(results)`
on line 201 ends in a `ReferenceError`, and `rebuildFlatList()` on line 202 follows it. -/
def loadResults (item : StorageItem) (st : State) : Outcome :=
  let results := getStoredData item
  match normaliseStored results with
  | none => Outcome.threw st
  | some normalised =>
    let st1 : State := { st with original := some normalised, results := some normalised }
    match renderResults st1 with
    | Outcome.threw st2 => Outcome.threw st2
    | Outcome.returned st2 =>
      match rebuildFlatList st2 with
      | none => Outcome.threw st2
      | some st3 => Outcome.returned st3

/-- Statement `localStorage.setItem("cullaiThreshold", currentThreshold)` of the upload
page (script.js 310): the item holds the numeral of the integer threshold. -/
def persistThreshold (currentThreshold : Int) : Option Int := some currentThreshold

/-- Expression `Number(localStorage.getItem("cullaiThreshold")) || 50` (results.js
404-405) for an item that is missing (`none`, and `Number(null)` is 0) or holds the
numeral of an integer; 0 is falsy. -/
def savedThreshold (item : Option Int) : Int :=
  let stored : Int := match item with
    | none => 0
    | some value => value
  if stored = 0 then 50 else stored

/-- Module state of the results page before `loadResults` runs: no snapshot, empty flat
list, `activeIndex = -1`, empty selection, the slider at the saved threshold. -/
def initialState (thresholdItem : Option Int) (minRating : Nat) (label : String) : State :=
  { original := none, results := none, flatImageList := [], activeIndex := -1,
    selectedImages := [], liveThresholdSlider := savedThreshold thresholdItem,
    ratingFilter := minRating, labelFilter := label }

/-- User events and calls that change the page after start-up. -/
inductive Event where
  | keydown (key : String)
  | cardClick (src : String)
  | starClick (i : Nat)
  | contextmenu
  | sliderInput (value : Int)
  | ratingChange (minRating : Nat)
  | labelChange (label : String)
  | moveImage (image : ImageRecord) (target : Bucket)
  | compareClick
  | closeCompare
  | closeLightbox
  | downloadSelectedClick
deriving DecidableEq, Repr

/-- State after one event; an exception ends the handler with the state written so far.
The two `change` listeners (results.js 657-658) run `applyFilters` with the new value of
their control. -/
def step (ev : Event) (st : State) : State :=
  match ev with
  | Event.keydown key => (keydown key st).state
  | Event.cardClick src => cardClick src st
  | Event.starClick i => (starClick i st).state
  | Event.contextmenu => (contextmenu st).state
  | Event.sliderInput value => sliderInput value st
  | Event.ratingChange minRating =>
    (applyFilters { st with ratingFilter := minRating }).getD { st with ratingFilter := minRating }
  | Event.labelChange label =>
    (applyFilters { st with labelFilter := label }).getD { st with labelFilter := label }
  | Event.moveImage image target => moveImage image target st
  | Event.compareClick => (compareClick st).state
  | Event.closeCompare => closeCompare st
  | Event.closeLightbox => closeLightbox st
  | Event.downloadSelectedClick => downloadSelectedClick st

/-- State after a sequence of events, oldest first. -/
def run (evs : List Event) (st : State) : State := evs.foldl (fun acc ev => step ev acc) st

/-! ## Upload page (`src/script.js`) -/

/-- A file of the browser file list: name, size in bytes and MIME type. -/
structure UploadFile where
  name : String
  size : Nat
  type : String
deriving DecidableEq, Repr

/-- State of the upload page read or written by `validateFiles` and `handleFiles`: the
module variable `selectedFiles` and the text shown in `uploadError` (`none` when it is
cleared and hidden). -/
structure UploadState where
  selectedFiles : List UploadFile
  uploadError : Option String
deriving DecidableEq, Repr

/-- Constant `MAX_FILES` (script.js 131). -/
def MAX_FILES : Nat := 20

/-- Constant `MAX_SIZE_MB` (script.js 132). -/
def MAX_SIZE_MB : Nat := 10

/-- Function `bytesToMB(bytes)` (script.js 29-31), `(bytes / (1024 * 1024)).toFixed(2)`:
the numeral with two decimals nearest to the quotient, a tie going up. The model keeps
the value of that numeral in hundredths of a megabyte; the quotient by a power of two
is exact for every size below `2 ^ 53`. -/
def bytesToMB (bytes : Nat) : Nat := (2 * (100 * bytes) + 1024 * 1024) / (2 * (1024 * 1024))

/-- Function `totalSize(files)` (script.js 33-35). -/
def totalSize (files : List UploadFile) : Nat := files.foldl (fun sum f => sum + f.size) 0

/-- Method `s.startsWith(start)`. -/
def jsStartsWith (s start : String) : Bool := start.toList.isPrefixOf s.toList

/-- Function `showError(message)` (script.js 141-145). -/
def showError (message : String) (st : UploadState) : UploadState :=
  { st with uploadError := some message }

/-- Function `clearError()` (script.js 147-150). -/
def clearError (st : UploadState) : UploadState :=
  { st with uploadError := none }

/-- Function `validateFiles(files)` (script.js 180-198): its result and the state it
leaves. The comparison `bytesToMB(...) > MAX_SIZE_MB` converts the numeral back to a
number, so it compares the rounded hundredths with `100 * MAX_SIZE_MB`. -/
def validateFiles (files : List UploadFile) (st : UploadState) : Bool × UploadState :=
  if files.length > MAX_FILES then
    (false, showError "Maximum 20 images allowed." st)
  else if bytesToMB (totalSize files) > 100 * MAX_SIZE_MB then
    (false, showError "Total size must be under 10 MB." st)
  else if files.any (fun f => !jsStartsWith f.type "image/") then
    (false, showError "Only image files are supported." st)
  else
    (true, clearError st)

/-- Function `handleFiles(fileList)` (script.js 205-211). -/
def handleFiles (fileList : List UploadFile) (st : UploadState) : UploadState :=
  let files := fileList
  if !(validateFiles files st).1 then (validateFiles files st).2
  else { (validateFiles files st).2 with selectedFiles := files }

/-! ## Specification-side vocabulary -/

/-- The other bucket name. -/
def Bucket.other : Bucket → Bucket
  | Bucket.sharp => Bucket.blurry
  | Bucket.blurry => Bucket.sharp

/-- All records of a partition, sharp bucket first. -/
def Snapshot.all (s : Snapshot) : List ImageRecord := s.sharp ++ s.blurry

/-- Source references of a partition, sharp bucket first. -/
def Snapshot.srcs (s : Snapshot) : List String := s.all.map (fun r => r.src)

/-- Re-Bucketing Engine of the specification (section 4.2): `sharp` holds the images
with `score >= threshold`, `blurry` the others, both in the order of `images`. -/
def specRebucket (images : List ImageRecord) (threshold : Int) : Snapshot :=
  { sharp := images.filter (fun i => scoreGe i.score threshold),
    blurry := images.filter (fun i => !scoreGe i.score threshold) }

/-- Rating and label tests of the specification (section 4.3): a record survives when its
rating is at least `minRating` and, for a label filter other than `"all"`, its label is
that label. -/
def passesFilters (minRating : Nat) (label : String) (img : ImageRecord) : Bool :=
  decide (minRating ≤ img.rating) && (label == "all" || img.label == some label)

/-- Filter Engine of the specification (section 4.3): drop the records that fail the
rating or label test, then bucket the survivors by the rule of section 4.2. -/
def specFilter (images : List ImageRecord) (minRating : Nat) (label : String)
    (threshold : Int) : Snapshot :=
  specRebucket (images.filter (passesFilters minRating label)) threshold

/-- The navigator is idle (`activeIndex = -1`) or `activeIndex` is an index of the flat
list. -/
def NavOk (st : State) : Prop :=
  st.activeIndex = -1 ∨ (0 ≤ st.activeIndex ∧ st.activeIndex < st.flatImageList.length)

/-! ## Concrete records and states -/

/-- Record `a` of the specification scenario, score 10. -/
def recA : ImageRecord :=
  { src := "a", name := "a.jpg", score := some 10, rating := 0, label := none }

/-- A second record, score 80, rated 4 and labelled green. -/
def recB : ImageRecord :=
  { src := "b", name := "b.jpg", score := some 80, rating := 4, label := some "green" }

/-- A third record, score 60, rated 2 and labelled red. -/
def recC : ImageRecord :=
  { src := "c", name := "c.jpg", score := some 60, rating := 2, label := some "red" }

/-- A page whose snapshot and view are both `snap` and whose flat list is the one
`rebuildFlatList()` builds from that view, with the
slider at `slider` and the two filters at `minRating` and `label`. -/
def pageOf (snap : Snapshot) (slider : Int) (minRating : Nat) (label : String) : State :=
  { original := some snap, results := some snap, flatImageList := snap.sharp ++ snap.blurry,
    activeIndex := -1, selectedImages := [], liveThresholdSlider := slider,
    ratingFilter := minRating, labelFilter := label }

/-- Scenario of the specification: snapshot with empty sharp bucket and `a` in blurry. -/
def scenarioPage : State := pageOf { sharp := [], blurry := [recA] } 50 0 "all"

/-- A page with three records, `a` filed under sharp and `b`, `c` under blurry. -/
def triplePage : State := pageOf { sharp := [recA], blurry := [recB, recC] } 50 0 "all"

/-- The three-record page with the rating filter at 3 and the label filter at green. -/
def filteredPage : State := pageOf { sharp := [recA], blurry := [recB, recC] } 50 3 "green"

/-- The three-record page after one `ArrowRight`: `a` is focused and the lightbox is open. -/
def focusedPage : State := (keydown "ArrowRight" triplePage).state

/-- A page with an empty snapshot, view and flat list. -/
def emptyPage : State := pageOf { sharp := [], blurry := [] } 50 0 "all"

/-- A record as the upload page or an earlier session stored it. -/
def storedOf (r : ImageRecord) : StoredRecord :=
  { src := r.src, name := r.name, score := r.score, rating := some r.rating, label := r.label }

/-- Storage holding the three-record snapshot, `a` under sharp and `b`, `c` under blurry. -/
def storedTriple : StorageItem :=
  StorageItem.json
    (StoredValue.object (some [storedOf recA]) (some [storedOf recB, storedOf recC]))

/-- A page showing a single record of score 80. -/
def singlePage : State := pageOf { sharp := [recB], blurry := [] } 50 0 "all"

/-- The three-record page after the cards of `a` and `b` were clicked and the rating
filter was set to 3: both references are selected and only `b` is shown. -/
def selectedPage : State :=
  run [Event.cardClick "a", Event.cardClick "b", Event.ratingChange 3] triplePage

/-- An image file of 10 MB and one byte. -/
def bigFile : UploadFile := { name := "big.png", size := 10 * 1024 * 1024 + 1, type := "image/png" }

/-- An upload page holding one small image, no error shown. -/
def uploadPage : UploadState :=
  { selectedFiles := [{ name := "small.png", size := 2048, type := "image/png" }],
    uploadError := none }

/-! ## The two loops as filters -/

theorem scoreGe_iff (score : Option Int) (t : Int) :
    scoreGe score t = true ↔ ∃ v, score = some v ∧ t ≤ v := by
  cases score <;> simp [scoreGe]

theorem foldl_bucketStep (t : Int) (l : List ImageRecord) (acc : Snapshot) :
    l.foldl (bucketStep t) acc =
      { sharp := acc.sharp ++ (specRebucket l t).sharp,
        blurry := acc.blurry ++ (specRebucket l t).blurry } := by
  induction l generalizing acc with
  | nil => simp [specRebucket]
  | cons x xs ih =>
    rw [List.foldl_cons, ih]
    unfold bucketStep specRebucket
    by_cases h : scoreGe x.score t = true <;> simp [h]

theorem passesFilters_iff (m : Nat) (L : String) (img : ImageRecord) :
    passesFilters m L img = true ↔ ¬ img.rating < m ∧ ¬ (L ≠ "all" ∧ img.label ≠ some L) := by
  unfold passesFilters
  by_cases h1 : L = "all" <;> by_cases h2 : img.label = some L <;> simp [h1, h2]

theorem foldl_filterStep (m : Nat) (L : String) (t : Int) (l : List ImageRecord)
    (acc : Snapshot) :
    l.foldl (filterStep m L t) acc =
      { sharp := acc.sharp ++ (specFilter l m L t).sharp,
        blurry := acc.blurry ++ (specFilter l m L t).blurry } := by
  induction l generalizing acc with
  | nil => simp [specFilter, specRebucket]
  | cons x xs ih =>
    rw [List.foldl_cons, ih]
    by_cases hp : passesFilters m L x = true
    · have hp2 := (passesFilters_iff m L x).1 hp
      unfold filterStep specFilter specRebucket
      by_cases h : scoreGe x.score t = true <;> simp [hp, hp2.1, hp2.2, h]
    · have hp3 : ¬ (¬ x.rating < m ∧ ¬ (L ≠ "all" ∧ x.label ≠ some L)) :=
        fun hc => hp ((passesFilters_iff m L x).2 hc)
      have hp4 : passesFilters m L x = false := by simpa using hp
      unfold filterStep specFilter specRebucket
      by_cases h1 : x.rating < m
      · simp [hp4, h1]
      · have h2 : L ≠ "all" ∧ x.label ≠ some L := by
          by_contra hc
          exact hp3 ⟨h1, hc⟩
        simp [hp4, h1, h2]

theorem applyLiveThreshold_eq (t : Int) (st : State) (o : Snapshot) (h : st.original = some o) :
    applyLiveThreshold t st = { st with results := some (specRebucket o.all t) } := by
  unfold applyLiveThreshold
  rw [h]
  simp [foldl_bucketStep, Snapshot.all, specRebucket]

theorem applyFilters_eq (st : State) (o : Snapshot) (h : st.original = some o) :
    applyFilters st = some { st with
      results := some (specFilter o.all st.ratingFilter st.labelFilter st.liveThresholdSlider) } := by
  unfold applyFilters
  rw [h]
  simp [foldl_filterStep, Snapshot.all, specFilter, specRebucket]

theorem count_specRebucket (l : List ImageRecord) (t : Int) (r : ImageRecord) :
    l.count r = (specRebucket l t).sharp.count r + (specRebucket l t).blurry.count r := by
  induction l with
  | nil => simp [specRebucket]
  | cons x xs ih =>
    simp only [specRebucket] at ih ⊢
    by_cases h : scoreGe x.score t = true
    · simp [List.filter_cons, h, List.count_cons, ih]
      omega
    · simp [List.filter_cons, h, List.count_cons, ih]
      omega

/-! ## Re-bucketing -/

/-- C1: for a snapshot `o` and a threshold `t`, `applyLiveThreshold(t)` installs a view in
which every record of `o.sharp ++ o.blurry` is in at least one bucket and never in both,
and is in `sharp` exactly when it has a score `s` with `t <= s` (a score equal to `t`
goes to sharp); every occurrence of a record lands in one bucket. -/
theorem applyLiveThreshold_partition (st : State) (o : Snapshot) (t : Int)
    (h : st.original = some o) :
    ∃ v, (applyLiveThreshold t st).results = some v ∧
      (∀ r ∈ o.sharp ++ o.blurry,
        (r ∈ v.sharp ∨ r ∈ v.blurry) ∧ ¬ (r ∈ v.sharp ∧ r ∈ v.blurry) ∧
        (r ∈ v.sharp ↔ ∃ s, r.score = some s ∧ t ≤ s)) ∧
      (∀ r, (o.sharp ++ o.blurry).count r = v.sharp.count r + v.blurry.count r) := by
  refine ⟨specRebucket o.all t, ?_, ?_, ?_⟩
  · rw [applyLiveThreshold_eq t st o h]
  · intro r hr
    have hr2 : r ∈ o.all := hr
    by_cases hs : scoreGe r.score t = true
    · have hs2 := (scoreGe_iff r.score t).1 hs
      simp [specRebucket, hr2, hs, hs2]
    · have hs2 : ¬ ∃ s, r.score = some s ∧ t ≤ s := fun hc => hs ((scoreGe_iff r.score t).2 hc)
      simp only [specRebucket, List.mem_filter, hr2, true_and]
      simp [hs, hs2]
  · intro r
    exact count_specRebucket o.all t r

/-- Scenario of the specification for C1: the snapshot with only `a` (score 10) in blurry
gives an empty sharp bucket at threshold 50 and moves `a` to sharp at threshold 5. -/
theorem applyLiveThreshold_partition_witness :
    (applyLiveThreshold 50 scenarioPage).results = some { sharp := [], blurry := [recA] } ∧
    (applyLiveThreshold 5 scenarioPage).results = some { sharp := [recA], blurry := [] } ∧
    scenarioPage.original = some { sharp := [], blurry := [recA] } ∧
    ∃ v, (applyLiveThreshold 5 scenarioPage).results = some v ∧
      (∀ r ∈ ([] : List ImageRecord) ++ [recA],
        (r ∈ v.sharp ∨ r ∈ v.blurry) ∧ ¬ (r ∈ v.sharp ∧ r ∈ v.blurry) ∧
        (r ∈ v.sharp ↔ ∃ s, r.score = some s ∧ (5 : Int) ≤ s)) ∧
      (∀ r, (([] : List ImageRecord) ++ [recA]).count r = v.sharp.count r + v.blurry.count r) :=
  ⟨by decide, by decide, rfl,
    applyLiveThreshold_partition scenarioPage { sharp := [], blurry := [recA] } 5 rfl⟩

/-- C2: calling `applyLiveThreshold(t)` twice in a row leaves the same page state, hence
the same Current View (same records, same buckets, same order), as calling it once. -/
theorem applyLiveThreshold_idempotent (st : State) (t : Int) :
    applyLiveThreshold t (applyLiveThreshold t st) = applyLiveThreshold t st ∧
    (applyLiveThreshold t (applyLiveThreshold t st)).results = (applyLiveThreshold t st).results := by
  have key : applyLiveThreshold t (applyLiveThreshold t st) = applyLiveThreshold t st := by
    cases h : st.original with
    | none => simp [applyLiveThreshold, h]
    | some o =>
      rw [applyLiveThreshold_eq t st o h]
      exact applyLiveThreshold_eq t _ o h
  exact ⟨key, by rw [key]⟩

/-- C3: with a snapshot `o` installed, neither `applyLiveThreshold(t)` nor `applyFilters()`
(which finds the snapshot and runs its loop) changes the Original Snapshot: its sharp and
blurry lists are the same lists afterwards, for every threshold and every filter setting
of the page. -/
theorem original_unchanged (st : State) (o : Snapshot) (t : Int) (h : st.original = some o) :
    (applyLiveThreshold t st).original = some o ∧
    ∃ st1, applyFilters st = some st1 ∧ st1.original = some o := by
  constructor
  · rw [applyLiveThreshold_eq t st o h]
    exact h
  · exact ⟨_, applyFilters_eq st o h, h⟩

/-- Instance of C3 on the three-record page with rating filter 3 and label filter green. -/
theorem original_unchanged_witness :
    filteredPage.original = some { sharp := [recA], blurry := [recB, recC] } ∧
    (applyLiveThreshold 70 filteredPage).original =
      some { sharp := [recA], blurry := [recB, recC] } ∧
    ∃ st1, applyFilters filteredPage = some st1 ∧
      st1.original = some { sharp := [recA], blurry := [recB, recC] } :=
  ⟨rfl, original_unchanged _ _ 70 rfl⟩

/-! ## Filtering -/

theorem mem_all_specFilter (l : List ImageRecord) (m : Nat) (L : String) (t : Int)
    (r : ImageRecord) :
    r ∈ (specFilter l m L t).sharp ++ (specFilter l m L t).blurry ↔
      r ∈ l ∧ passesFilters m L r = true := by
  simp only [specFilter, specRebucket, List.mem_append, List.mem_filter]
  by_cases hs : scoreGe r.score t = true <;> simp [hs]

theorem count_all_specFilter (l : List ImageRecord) (m : Nat) (L : String) (t : Int)
    (r : ImageRecord) :
    ((specFilter l m L t).sharp ++ (specFilter l m L t).blurry).count r =
      if passesFilters m L r = true then l.count r else 0 := by
  rw [List.count_append]
  unfold specFilter
  rw [← count_specRebucket]
  by_cases hp : passesFilters m L r = true
  · rw [if_pos hp]
    exact List.count_filter hp
  · rw [if_neg hp]
    apply List.count_eq_zero_of_not_mem
    intro hc
    exact hp (List.mem_filter.1 hc).2

/-- C4: with a snapshot `o` installed, minimum rating `m = st.ratingFilter` and label
filter `L = st.labelFilter`, `applyFilters()` returns and installs a view that holds no
record with `rating < m`; when `L` is not `"all"` it holds only records labelled `L`, and
then its records are exactly the snapshot records with `rating >= m` and label `L`, each
as often as in the snapshot (once when the snapshot lists it once). -/
theorem applyFilters_intersection (st : State) (o : Snapshot) (h : st.original = some o) :
    ∃ st1 v, applyFilters st = some st1 ∧ st1.results = some v ∧
      (∀ r ∈ v.sharp ++ v.blurry, ¬ r.rating < st.ratingFilter) ∧
      (st.labelFilter ≠ "all" → ∀ r ∈ v.sharp ++ v.blurry, r.label = some st.labelFilter) ∧
      (st.labelFilter ≠ "all" → ∀ r, r ∈ v.sharp ++ v.blurry ↔
        r ∈ o.sharp ++ o.blurry ∧ st.ratingFilter ≤ r.rating ∧ r.label = some st.labelFilter) ∧
      (st.labelFilter ≠ "all" → ∀ r, (v.sharp ++ v.blurry).count r =
        if st.ratingFilter ≤ r.rating ∧ r.label = some st.labelFilter
        then (o.sharp ++ o.blurry).count r else 0) ∧
      ((o.sharp ++ o.blurry).Nodup → (v.sharp ++ v.blurry).Nodup) := by
  refine ⟨_, specFilter o.all st.ratingFilter st.labelFilter st.liveThresholdSlider,
    applyFilters_eq st o h, rfl, ?_, ?_, ?_, ?_, ?_⟩
  · intro r hr
    have hp := ((mem_all_specFilter _ _ _ _ r).1 hr).2
    exact ((passesFilters_iff _ _ r).1 hp).1
  · intro hL r hr
    have hp := ((mem_all_specFilter _ _ _ _ r).1 hr).2
    have h2 := ((passesFilters_iff _ _ r).1 hp).2
    by_contra hc
    exact h2 ⟨hL, hc⟩
  · intro hL r
    rw [mem_all_specFilter, passesFilters_iff]
    have hall : o.all = o.sharp ++ o.blurry := rfl
    rw [hall]
    constructor
    · rintro ⟨hm, h1, h2⟩
      refine ⟨hm, Nat.le_of_not_lt h1, ?_⟩
      by_contra hc
      exact h2 ⟨hL, hc⟩
    · rintro ⟨hm, h1, h2⟩
      exact ⟨hm, Nat.not_lt.2 h1, fun hc => hc.2 h2⟩
  · intro hL r
    rw [count_all_specFilter]
    have hall : o.all = o.sharp ++ o.blurry := rfl
    rw [hall]
    have hiff : passesFilters st.ratingFilter st.labelFilter r = true ↔
        (st.ratingFilter ≤ r.rating ∧ r.label = some st.labelFilter) := by
      rw [passesFilters_iff]
      constructor
      · rintro ⟨h1, h2⟩
        refine ⟨Nat.le_of_not_lt h1, ?_⟩
        by_contra hc
        exact h2 ⟨hL, hc⟩
      · rintro ⟨h1, h2⟩
        exact ⟨Nat.not_lt.2 h1, fun hc => hc.2 h2⟩
    by_cases hp : passesFilters st.ratingFilter st.labelFilter r = true
    · rw [if_pos hp, if_pos (hiff.1 hp)]
    · rw [if_neg hp, if_neg (fun hc => hp (hiff.2 hc))]
  · intro hnd
    rw [List.nodup_iff_count_le_one] at hnd ⊢
    intro r
    rw [count_all_specFilter]
    have hall : o.all = o.sharp ++ o.blurry := rfl
    rw [hall]
    split
    · exact hnd r
    · exact Nat.zero_le 1

/-- Instance of C4: on the three-record page, minimum rating 3 and label green leave
only `b` (rated 4, green); `a` (rated 0) and `c` (rated 2, red) are excluded. -/
theorem applyFilters_intersection_witness :
    (applyFilters filteredPage).bind (fun s => s.results) =
      some { sharp := [recB], blurry := [] } ∧
    filteredPage.original = some { sharp := [recA], blurry := [recB, recC] } ∧
    ∃ st1 v, applyFilters filteredPage = some st1 ∧ st1.results = some v ∧
      (∀ r ∈ v.sharp ++ v.blurry, ¬ r.rating < filteredPage.ratingFilter) ∧
      (filteredPage.labelFilter ≠ "all" →
        ∀ r ∈ v.sharp ++ v.blurry, r.label = some filteredPage.labelFilter) ∧
      (filteredPage.labelFilter ≠ "all" → ∀ r, r ∈ v.sharp ++ v.blurry ↔
        r ∈ [recA] ++ [recB, recC] ∧ filteredPage.ratingFilter ≤ r.rating ∧
          r.label = some filteredPage.labelFilter) ∧
      (filteredPage.labelFilter ≠ "all" → ∀ r, (v.sharp ++ v.blurry).count r =
        if filteredPage.ratingFilter ≤ r.rating ∧ r.label = some filteredPage.labelFilter
        then ([recA] ++ [recB, recC]).count r else 0) ∧
      (([recA] ++ [recB, recC]).Nodup → (v.sharp ++ v.blurry).Nodup) :=
  ⟨by decide, rfl,
    applyFilters_intersection filteredPage { sharp := [recA], blurry := [recB, recC] } rfl⟩

/-- C5: with a snapshot `o` installed, `applyFilters()` installs the view that
`applyLiveThreshold(t)`, `t` the slider value, computes from `o` restricted in order to
the records passing the rating and label tests; with minimum rating 0 and label
`"all"` the two functions leave the same state. -/
theorem applyFilters_refines (st : State) (o : Snapshot) (h : st.original = some o) :
    ∃ st1, applyFilters st = some st1 ∧
      st1.results = (applyLiveThreshold st.liveThresholdSlider { st with
        original := some
          { sharp := o.sharp.filter (passesFilters st.ratingFilter st.labelFilter),
            blurry := o.blurry.filter (passesFilters st.ratingFilter st.labelFilter) } }).results ∧
      (st.ratingFilter = 0 → st.labelFilter = "all" →
        st1 = applyLiveThreshold st.liveThresholdSlider st) := by
  refine ⟨_, applyFilters_eq st o h, ?_, ?_⟩
  · rw [applyLiveThreshold_eq st.liveThresholdSlider _ _ rfl]
    simp [specFilter, Snapshot.all]
  · intro hm hL
    rw [applyLiveThreshold_eq st.liveThresholdSlider st o h]
    have hall : ∀ r : ImageRecord, passesFilters st.ratingFilter st.labelFilter r = true := by
      intro r
      simp [passesFilters, hm, hL]
    have hfil : o.all.filter (passesFilters st.ratingFilter st.labelFilter) = o.all :=
      List.filter_eq_self.2 (fun r _ => hall r)
    simp only [specFilter, hfil]

/-- Instance of C5 on the three-record page with rating filter 3 and label filter green,
and on the same page with both filters neutral. -/
theorem applyFilters_refines_witness :
    filteredPage.original = some { sharp := [recA], blurry := [recB, recC] } ∧
    triplePage.original = some { sharp := [recA], blurry := [recB, recC] } ∧
    triplePage.ratingFilter = 0 ∧ triplePage.labelFilter = "all" ∧
    applyFilters triplePage = some (applyLiveThreshold 50 triplePage) ∧
    ∃ st1, applyFilters filteredPage = some st1 ∧
      st1.results = (applyLiveThreshold filteredPage.liveThresholdSlider { filteredPage with
        original := some
          { sharp := [recA].filter
              (passesFilters filteredPage.ratingFilter filteredPage.labelFilter),
            blurry := [recB, recC].filter
              (passesFilters filteredPage.ratingFilter filteredPage.labelFilter) } }).results ∧
      (filteredPage.ratingFilter = 0 → filteredPage.labelFilter = "all" →
        st1 = applyLiveThreshold filteredPage.liveThresholdSlider filteredPage) :=
  ⟨rfl, rfl, rfl, rfl,
    (by
      obtain ⟨st1, h1, _, h3⟩ :=
        applyFilters_refines triplePage { sharp := [recA], blurry := [recB, recC] } rfl
      rw [h1, h3 rfl rfl]
      rfl),
    applyFilters_refines filteredPage { sharp := [recA], blurry := [recB, recC] } rfl⟩

/-- C6 evaluated on the three-record page with rating filter 3 and label filter green:
`applyFilters()` shows only `b`; moving the slider to 40 (or moving `a` by hand) then
installs a view that again holds `a` (rated 0) and `c` (rated 2, red), which is not the
filter of the snapshot under the active settings. -/
theorem sliderInput_drops_filters :
    ∃ st1, applyFilters filteredPage = some st1 ∧
      st1.results = some { sharp := [recB], blurry := [] } ∧
      (sliderInput 40 st1).results = some { sharp := [recB, recC], blurry := [recA] } ∧
      (sliderInput 40 st1).ratingFilter = 3 ∧ (sliderInput 40 st1).labelFilter = "green" ∧
      (sliderInput 40 st1).liveThresholdSlider = 40 ∧
      (sliderInput 40 st1).original = some { sharp := [recA], blurry := [recB, recC] } ∧
      recA.rating < 3 ∧ recC.label ≠ some "green" ∧
      specFilter [recA, recB, recC] 3 "green" 40 = { sharp := [recB], blurry := [] } ∧
      (applyFilters (sliderInput 40 st1)).bind (fun s => s.results) ≠
        (sliderInput 40 st1).results ∧
      (moveImage recA Bucket.sharp st1).results =
        some { sharp := [recB, recC], blurry := [recA] } ∧
      (moveImage recA Bucket.sharp st1).ratingFilter = 3 := by
  refine ⟨_, rfl, ?_⟩
  decide

/-! ## Manual moves -/

/-- Snapshot written by `moveImage`: both buckets without the records carrying the
reference of `image`, then `image` pushed on `target`. -/
theorem moveImage_eq (image : ImageRecord) (target : Bucket) (st : State) (o : Snapshot)
    (h : st.original = some o) :
    moveImage image target st =
      { st with
        original := some (Snapshot.push
          { sharp := o.sharp.filter (fun i => i.src != image.src),
            blurry := o.blurry.filter (fun i => i.src != image.src) } target image),
        results := some (specRebucket (Snapshot.push
          { sharp := o.sharp.filter (fun i => i.src != image.src),
            blurry := o.blurry.filter (fun i => i.src != image.src) } target image).all
          st.liveThresholdSlider) } := by
  unfold moveImage
  rw [h]
  simp only
  rw [applyLiveThreshold_eq _ _ _ rfl]

theorem filter_eq_filter_ne (image : ImageRecord) (l : List ImageRecord) :
    (l.filter (fun i => i.src != image.src)).filter (fun r => r.src == image.src) = [] := by
  rw [List.filter_filter]
  apply List.filter_eq_nil_iff.2
  intro a _
  by_cases hc : a.src = image.src <;> simp [hc]

theorem filter_ne_filter_ne (image : ImageRecord) (l : List ImageRecord) :
    (l.filter (fun i => i.src != image.src)).filter (fun r => r.src != image.src) =
      l.filter (fun r => r.src != image.src) := by
  rw [List.filter_filter]
  congr 1
  funext a
  simp

theorem filter_ne_of_all_ne (image : ImageRecord) (l : List ImageRecord)
    (hl : ∀ r ∈ l, r.src ≠ image.src) :
    l.filter (fun r => r.src != image.src) = l := by
  apply List.filter_eq_self.2
  intro a ha
  simpa using hl a ha

/-- C7: with a snapshot `o` installed, `moveImage(image, target)` leaves a snapshot that
holds exactly one record with the source reference of `image`, namely `image`, as the
last element of the target bucket; the target bucket is its old content without the
records of that reference followed by `image`, the other bucket is its old content
without them; the records of other references keep their bucket and order; and when no
record had that reference nothing is removed. -/
theorem moveImage_original (st : State) (o : Snapshot) (image : ImageRecord)
    (target : Bucket) (h : st.original = some o) :
    ∃ o1, (moveImage image target st).original = some o1 ∧
      (o1.sharp ++ o1.blurry).filter (fun r => r.src == image.src) = [image] ∧
      (o1.get target).getLast? = some image ∧
      o1.get target = (o.get target).filter (fun r => r.src != image.src) ++ [image] ∧
      o1.get target.other = (o.get target.other).filter (fun r => r.src != image.src) ∧
      o1.sharp.filter (fun r => r.src != image.src) =
        o.sharp.filter (fun r => r.src != image.src) ∧
      o1.blurry.filter (fun r => r.src != image.src) =
        o.blurry.filter (fun r => r.src != image.src) ∧
      ((∀ r ∈ o.sharp ++ o.blurry, r.src ≠ image.src) →
        o1.get target = o.get target ++ [image] ∧ o1.get target.other = o.get target.other) := by
  refine ⟨_, by rw [moveImage_eq image target st o h], ?_⟩
  have e1 := filter_eq_filter_ne image o.sharp
  have e2 := filter_eq_filter_ne image o.blurry
  have n1 := filter_ne_filter_ne image o.sharp
  have n2 := filter_ne_filter_ne image o.blurry
  cases target
  · simp only [Snapshot.push, Snapshot.get, Bucket.other]
    refine ⟨?_, ?_, trivial, trivial, ?_, n2, ?_⟩
    · simp [List.filter_append, e1, e2, List.filter_cons]
    · simp
    · simp [List.filter_append, n1, List.filter_cons]
    · intro hall
      rw [filter_ne_of_all_ne image o.sharp (fun r hr => hall r (List.mem_append_left _ hr)),
        filter_ne_of_all_ne image o.blurry (fun r hr => hall r (List.mem_append_right _ hr))]
      exact ⟨rfl, rfl⟩
  · simp only [Snapshot.push, Snapshot.get, Bucket.other]
    refine ⟨?_, ?_, trivial, trivial, n1, ?_, ?_⟩
    · simp [List.filter_append, e1, e2, List.filter_cons]
    · simp
    · simp [List.filter_append, n2, List.filter_cons]
    · intro hall
      rw [filter_ne_of_all_ne image o.sharp (fun r hr => hall r (List.mem_append_left _ hr)),
        filter_ne_of_all_ne image o.blurry (fun r hr => hall r (List.mem_append_right _ hr))]
      exact ⟨rfl, rfl⟩

/-- Instance of C7: moving `c` to sharp on the three-record page takes it out of blurry and
appends it to sharp. -/
theorem moveImage_original_witness :
    triplePage.original = some { sharp := [recA], blurry := [recB, recC] } ∧
    (moveImage recC Bucket.sharp triplePage).original =
      some { sharp := [recA, recC], blurry := [recB] } ∧
    ∃ o1, (moveImage recC Bucket.sharp triplePage).original = some o1 ∧
      (o1.sharp ++ o1.blurry).filter (fun r => r.src == recC.src) = [recC] ∧
      (o1.get Bucket.sharp).getLast? = some recC ∧
      o1.get Bucket.sharp =
        (Snapshot.get { sharp := [recA], blurry := [recB, recC] } Bucket.sharp).filter
          (fun r => r.src != recC.src) ++ [recC] ∧
      o1.get Bucket.sharp.other =
        (Snapshot.get { sharp := [recA], blurry := [recB, recC] } Bucket.sharp.other).filter
          (fun r => r.src != recC.src) ∧
      o1.sharp.filter (fun r => r.src != recC.src) =
        [recA].filter (fun r => r.src != recC.src) ∧
      o1.blurry.filter (fun r => r.src != recC.src) =
        [recB, recC].filter (fun r => r.src != recC.src) ∧
      ((∀ r ∈ [recA] ++ [recB, recC], r.src ≠ recC.src) →
        o1.get Bucket.sharp =
          Snapshot.get { sharp := [recA], blurry := [recB, recC] } Bucket.sharp ++ [recC] ∧
        o1.get Bucket.sharp.other =
          Snapshot.get { sharp := [recA], blurry := [recB, recC] } Bucket.sharp.other) :=
  ⟨rfl, by decide,
    moveImage_original triplePage { sharp := [recA], blurry := [recB, recC] } recC
      Bucket.sharp rfl⟩

theorem moveImage_then_threshold (st : State) (o : Snapshot) (image : ImageRecord)
    (target : Bucket) (t : Int) (h : st.original = some o) :
    ∃ v, (applyLiveThreshold t (moveImage image target st)).results = some v ∧
      (scoreGe image.score t = true → image ∈ v.sharp ∧ image ∉ v.blurry) ∧
      (scoreGe image.score t = false → image ∈ v.blurry ∧ image ∉ v.sharp) := by
  have hm := moveImage_eq image target st o h
  refine ⟨_, by rw [applyLiveThreshold_eq t _ _ (by rw [hm])], ?_, ?_⟩
  · intro hs
    cases target <;>
      simp [specRebucket, Snapshot.all, Snapshot.push, hs]
  · intro hs
    cases target <;>
      simp [specRebucket, Snapshot.all, Snapshot.push, hs]

/-- C8: with a snapshot installed and an image of score `s`, after
`moveImage(image, "sharp")` followed by `applyLiveThreshold(t)` with `t > s` the image
is in the blurry bucket of the Current View and not in sharp; after
`moveImage(image, "blurry")` followed by `applyLiveThreshold(t)` with `t <= s` it is in
sharp and not in blurry. -/
theorem move_overwritten_by_threshold (st : State) (o : Snapshot) (image : ImageRecord)
    (s t : Int) (h : st.original = some o) (hs : image.score = some s) :
    (s < t → ∃ v, (applyLiveThreshold t (moveImage image Bucket.sharp st)).results = some v ∧
      image ∈ v.blurry ∧ image ∉ v.sharp) ∧
    (t ≤ s → ∃ v, (applyLiveThreshold t (moveImage image Bucket.blurry st)).results = some v ∧
      image ∈ v.sharp ∧ image ∉ v.blurry) := by
  constructor
  · intro hlt
    obtain ⟨v, hv, _, h2⟩ := moveImage_then_threshold st o image Bucket.sharp t h
    have hf : scoreGe image.score t = false := by
      rw [hs]
      simp [scoreGe, hlt]
    exact ⟨v, hv, h2 hf⟩
  · intro hle
    obtain ⟨v, hv, h1, _⟩ := moveImage_then_threshold st o image Bucket.blurry t h
    have ht : scoreGe image.score t = true := by
      rw [hs]
      simp [scoreGe, hle]
    exact ⟨v, hv, h1 ht⟩

/-- Instance of C8 on the three-record page: `a` (score 10) moved to sharp is back in
blurry at threshold 50, and `b` (score 80) moved to blurry is back in sharp. -/
theorem move_overwritten_by_threshold_witness :
    triplePage.original = some { sharp := [recA], blurry := [recB, recC] } ∧
    recA.score = some 10 ∧ recB.score = some 80 ∧
    (∃ v, (applyLiveThreshold 50 (moveImage recA Bucket.sharp triplePage)).results = some v ∧
      recA ∈ v.blurry ∧ recA ∉ v.sharp) ∧
    (∃ v, (applyLiveThreshold 50 (moveImage recB Bucket.blurry triplePage)).results = some v ∧
      recB ∈ v.sharp ∧ recB ∉ v.blurry) :=
  ⟨rfl, rfl, rfl,
    (move_overwritten_by_threshold triplePage { sharp := [recA], blurry := [recB, recC] }
      recA 10 50 rfl rfl).1 (by decide),
    (move_overwritten_by_threshold triplePage { sharp := [recA], blurry := [recB, recC] }
      recB 80 50 rfl rfl).2 (by decide)⟩

/-! ## Uniqueness of source references -/

theorem specRebucket_srcs_perm (l : List ImageRecord) (t : Int) :
    (specRebucket l t).srcs.Perm (l.map (fun r => r.src)) := by
  unfold Snapshot.srcs Snapshot.all specRebucket
  exact (List.filter_append_perm (fun i => scoreGe i.score t) l).map _

theorem specRebucket_srcs_nodup (l : List ImageRecord) (t : Int)
    (hl : (l.map (fun r => r.src)).Nodup) : (specRebucket l t).srcs.Nodup :=
  (specRebucket_srcs_perm l t).nodup_iff.2 hl

theorem specFilter_srcs_nodup (l : List ImageRecord) (m : Nat) (L : String) (t : Int)
    (hl : (l.map (fun r => r.src)).Nodup) : (specFilter l m L t).srcs.Nodup := by
  unfold specFilter
  apply specRebucket_srcs_nodup
  exact List.Nodup.sublist ((List.filter_sublist l).map _) hl

theorem moved_srcs_nodup (o : Snapshot) (image : ImageRecord) (target : Bucket)
    (hu : o.srcs.Nodup) :
    (Snapshot.push
      { sharp := o.sharp.filter (fun i => i.src != image.src),
        blurry := o.blurry.filter (fun i => i.src != image.src) } target image).srcs.Nodup := by
  have hkeep : List.Sublist
      (((o.sharp ++ o.blurry).filter (fun i => i.src != image.src)).map (fun r => r.src))
      o.srcs :=
    (List.filter_sublist (o.sharp ++ o.blurry)).map _
  have hnd := List.Nodup.sublist hkeep hu
  have hnot : image.src ∉ ((o.sharp ++ o.blurry).filter (fun i => i.src != image.src)).map
      (fun r => r.src) := by
    intro hc
    obtain ⟨r, hr, hsrc⟩ := List.mem_map.1 hc
    have h2 := (List.mem_filter.1 hr).2
    simp [hsrc] at h2
  have hcons : (image.src :: ((o.sharp ++ o.blurry).filter
      (fun i => i.src != image.src)).map (fun r => r.src)).Nodup :=
    List.nodup_cons.2 ⟨hnot, hnd⟩
  cases target
  · refine (List.Perm.nodup_iff ?_).2 hcons
    simp only [Snapshot.srcs, Snapshot.all, Snapshot.push, List.filter_append, List.map_append,
      List.map_cons, List.map_nil, List.append_assoc, List.singleton_append]
    exact List.perm_middle
  · refine (List.Perm.nodup_iff ?_).2 hcons
    simp only [Snapshot.srcs, Snapshot.all, Snapshot.push, List.filter_append, List.map_append,
      List.map_cons, List.map_nil]
    rw [← List.append_assoc]
    exact List.perm_append_singleton _ _

/-- C9: if every source reference occurs once across the Original Snapshot `o`, then
after `moveImage(image, target)`, after `applyLiveThreshold(t)` and after `applyFilters()`
no source reference occurs twice across the Original Snapshot, and none occurs twice
across the Current View. -/
theorem srcs_nodup_preserved (st : State) (o : Snapshot) (image : ImageRecord)
    (target : Bucket) (t : Int) (h : st.original = some o) (hu : o.srcs.Nodup) :
    (∃ o1 v, (moveImage image target st).original = some o1 ∧
      (moveImage image target st).results = some v ∧ o1.srcs.Nodup ∧ v.srcs.Nodup) ∧
    (∃ v, (applyLiveThreshold t st).original = some o ∧
      (applyLiveThreshold t st).results = some v ∧ v.srcs.Nodup) ∧
    (∃ st1 v, applyFilters st = some st1 ∧ st1.original = some o ∧
      st1.results = some v ∧ v.srcs.Nodup) := by
  refine ⟨?_, ?_, ?_⟩
  · have hm := moveImage_eq image target st o h
    have hn := moved_srcs_nodup o image target hu
    exact ⟨_, _, by rw [hm], by rw [hm], hn, specRebucket_srcs_nodup _ _ hn⟩
  · have ha := applyLiveThreshold_eq t st o h
    exact ⟨_, by rw [ha]; exact h, by rw [ha], specRebucket_srcs_nodup _ _ hu⟩
  · exact ⟨_, _, applyFilters_eq st o h, h, rfl, specFilter_srcs_nodup _ _ _ _ hu⟩

/-- Instance of C9 on the three-record page, whose references `a`, `b`, `c` are distinct. -/
theorem srcs_nodup_preserved_witness :
    filteredPage.original = some { sharp := [recA], blurry := [recB, recC] } ∧
    (Snapshot.srcs { sharp := [recA], blurry := [recB, recC] }).Nodup ∧
    (∃ o1 v, (moveImage recC Bucket.sharp filteredPage).original = some o1 ∧
      (moveImage recC Bucket.sharp filteredPage).results = some v ∧
      o1.srcs.Nodup ∧ v.srcs.Nodup) ∧
    (∃ v, (applyLiveThreshold 70 filteredPage).original =
        some { sharp := [recA], blurry := [recB, recC] } ∧
      (applyLiveThreshold 70 filteredPage).results = some v ∧ v.srcs.Nodup) ∧
    (∃ st1 v, applyFilters filteredPage = some st1 ∧
      st1.original = some { sharp := [recA], blurry := [recB, recC] } ∧
      st1.results = some v ∧ v.srcs.Nodup) :=
  ⟨rfl, by decide,
    srcs_nodup_preserved filteredPage { sharp := [recA], blurry := [recB, recC] } recC
      Bucket.sharp 70 rfl (by decide)⟩

/-! ## The flat list of the navigator -/

/-- C10 evaluated on the three-record page, whose flat list is the one `rebuildFlatList()`
builds: after the slider input 50 the view is `b, c` sharp and `a` blurry while the flat
list is still `a, b, c`; after `applyFilters()` with rating filter 3 and label green the
view holds only `b` while the flat list still holds all three; after moving `c` to sharp
the flat list is again unchanged. No function other than `rebuildFlatList` writes it. -/
theorem flatImageList_stale :
    rebuildFlatList triplePage = some triplePage ∧
    (sliderInput 50 triplePage).results = some { sharp := [recB, recC], blurry := [recA] } ∧
    (sliderInput 50 triplePage).flatImageList = [recA, recB, recC] ∧
    rebuildFlatList filteredPage = some filteredPage ∧
    (applyFilters filteredPage).bind (fun s => s.results) =
      some { sharp := [recB], blurry := [] } ∧
    (applyFilters filteredPage).map (fun s => s.flatImageList) = some [recA, recB, recC] ∧
    (moveImage recC Bucket.sharp triplePage).results =
      some { sharp := [recC, recB], blurry := [recA] } ∧
    (moveImage recC Bucket.sharp triplePage).flatImageList = [recA, recB, recC] ∧
    (∀ (st : State) (t : Int), (applyLiveThreshold t st).flatImageList = st.flatImageList) := by
  refine ⟨by decide, by decide, by decide, by decide, by decide, by decide, by decide,
    by decide, ?_⟩
  intro st t
  cases h : st.original with
  | none => simp [applyLiveThreshold, h]
  | some o => rw [applyLiveThreshold_eq t st o h]

/-! ## Keyboard navigation -/

theorem jsIndex_of_lt (xs : List ImageRecord) (i : Int) (h0 : 0 ≤ i) (hlt : i < xs.length) :
    ∃ img, jsIndex xs i = some img := by
  have hnat : i.toNat < xs.length := by omega
  refine ⟨xs[i.toNat], ?_⟩
  unfold jsIndex
  rw [if_pos h0]
  exact List.getElem?_eq_getElem hnat

theorem tmod_next_eq (i : Int) (n : Nat) (hi : -1 ≤ i) :
    Int.tmod (i + 1) n = (i + 1) % n :=
  Int.tmod_eq_emod (by omega) (Int.ofNat_nonneg n)

theorem tmod_prev_eq (i : Int) (n : Nat) (hn : 0 < n) (hi : -1 ≤ i) :
    Int.tmod (i - 1 + n) n = (i - 1 + n) % n := by
  by_cases h1 : n = 1
  · subst h1
    simp
  · exact Int.tmod_eq_emod (by omega) (Int.ofNat_nonneg n)

theorem keydown_hidden_nonempty (key : String) (st : State) (hid : st.lightbox.hidden = true)
    (hn : st.flatImageList ≠ []) :
    keydown key st =
      match key with
      | "ArrowRight" =>
        openActive { st with
          activeIndex := Int.tmod (st.activeIndex + 1) st.flatImageList.length }
      | "ArrowLeft" =>
        openActive { st with
          activeIndex :=
            Int.tmod (st.activeIndex - 1 + st.flatImageList.length) st.flatImageList.length }
      | " " =>
        match jsIndex st.flatImageList st.activeIndex with
        | none => Outcome.returned st
        | some current =>
          Outcome.returned { st with
            selectedImages := toggleSelected current.src st.selectedImages }
      | "s" | "S" | "b" | "B" => Outcome.threw st
      | "1" | "2" | "3" | "4" | "5" => Outcome.threw st
      | "g" | "G" | "y" | "Y" | "r" | "R" => Outcome.threw st
      | _ => Outcome.returned st := by
  have hlen : st.flatImageList.length ≠ 0 := fun hc => hn (List.length_eq_zero.1 hc)
  unfold keydown
  simp only [hid, hlen, Bool.not_true, Bool.false_eq_true, if_false]

/-- C11, as the code has it: with the lightbox hidden, a non-empty flat list of length
`n` and `activeIndex = i` with `-1 <= i < n`, `ArrowRight` sets `activeIndex` to
`(i + 1) mod n` and `ArrowLeft` to `(i - 1 + n) mod n`, and the lightbox opens on the
record at the new index; with an empty flat list, or while the lightbox is open, both
keys leave the state as it is. -/
theorem keydown_arrows (st : State) :
    (st.lightbox.hidden = true → st.flatImageList ≠ [] → -1 ≤ st.activeIndex →
      st.activeIndex < st.flatImageList.length →
      (∃ img, jsIndex st.flatImageList ((st.activeIndex + 1) % st.flatImageList.length) =
          some img ∧
        keydown "ArrowRight" st = Outcome.returned
          (openLightbox img.src img.name img.score { st with
            activeIndex := (st.activeIndex + 1) % st.flatImageList.length })) ∧
      (∃ img, jsIndex st.flatImageList
          ((st.activeIndex - 1 + st.flatImageList.length) % st.flatImageList.length) =
          some img ∧
        keydown "ArrowLeft" st = Outcome.returned
          (openLightbox img.src img.name img.score { st with
            activeIndex :=
              (st.activeIndex - 1 + st.flatImageList.length) % st.flatImageList.length }))) ∧
    (st.flatImageList = [] →
      keydown "ArrowRight" st = Outcome.returned st ∧
      keydown "ArrowLeft" st = Outcome.returned st) ∧
    (st.lightbox.hidden = false →
      keydown "ArrowRight" st = Outcome.returned st ∧
      keydown "ArrowLeft" st = Outcome.returned st) := by
  refine ⟨?_, ?_, ?_⟩
  · intro hid hn hi hlt
    have hpos : 0 < st.flatImageList.length := List.length_pos.2 hn
    have hposI : (0 : Int) < (st.flatImageList.length : Int) := by omega
    constructor
    · obtain ⟨img, himg⟩ := jsIndex_of_lt st.flatImageList
        ((st.activeIndex + 1) % st.flatImageList.length)
        (Int.emod_nonneg _ (by omega)) (Int.emod_lt_of_pos _ hposI)
      refine ⟨img, himg, ?_⟩
      rw [keydown_hidden_nonempty _ st hid hn]
      simp only [openActive, tmod_next_eq _ _ hi, himg]
    · obtain ⟨img, himg⟩ := jsIndex_of_lt st.flatImageList
        ((st.activeIndex - 1 + st.flatImageList.length) % st.flatImageList.length)
        (Int.emod_nonneg _ (by omega)) (Int.emod_lt_of_pos _ hposI)
      refine ⟨img, himg, ?_⟩
      rw [keydown_hidden_nonempty _ st hid hn]
      simp only [openActive, tmod_prev_eq _ _ hpos hi, himg]
  · intro hnil
    unfold keydown
    by_cases hid : st.lightbox.hidden = true <;> simp [hid, hnil]
  · intro hid
    unfold keydown
    simp [hid]

/-- C11 as stated fails while the lightbox is open: on the three-record page after one
`ArrowRight` (`a` focused at index 0, lightbox open) a further `ArrowRight` or
`ArrowLeft` leaves `activeIndex` at 0 instead of `(0 + 1) mod 3` or `(0 - 1 + 3) mod 3`. -/
theorem arrow_ignored_while_lightbox_open :
    focusedPage.flatImageList = [recA, recB, recC] ∧ focusedPage.activeIndex = 0 ∧
    focusedPage.lightbox.hidden = false ∧
    (keydown "ArrowRight" focusedPage).state.activeIndex = 0 ∧
    (keydown "ArrowRight" focusedPage).state.activeIndex ≠
      (focusedPage.activeIndex + 1) % focusedPage.flatImageList.length ∧
    (keydown "ArrowLeft" focusedPage).state.activeIndex = 0 ∧
    (keydown "ArrowLeft" focusedPage).state.activeIndex ≠
      (focusedPage.activeIndex - 1 + focusedPage.flatImageList.length) %
        focusedPage.flatImageList.length := by
  decide

/-- Instances of the amended C11: the idle three-record page (both arrows move and open
the lightbox), the empty page and the page with the lightbox open (both arrows do
nothing). -/
theorem keydown_arrows_witness :
    (triplePage.lightbox.hidden = true ∧ triplePage.flatImageList ≠ [] ∧
      -1 ≤ triplePage.activeIndex ∧
      triplePage.activeIndex < triplePage.flatImageList.length) ∧
    ((∃ img, jsIndex triplePage.flatImageList
          ((triplePage.activeIndex + 1) % triplePage.flatImageList.length) = some img ∧
        keydown "ArrowRight" triplePage = Outcome.returned
          (openLightbox img.src img.name img.score { triplePage with
            activeIndex := (triplePage.activeIndex + 1) % triplePage.flatImageList.length })) ∧
      (∃ img, jsIndex triplePage.flatImageList
          ((triplePage.activeIndex - 1 + triplePage.flatImageList.length) %
            triplePage.flatImageList.length) = some img ∧
        keydown "ArrowLeft" triplePage = Outcome.returned
          (openLightbox img.src img.name img.score { triplePage with
            activeIndex :=
              (triplePage.activeIndex - 1 + triplePage.flatImageList.length) %
                triplePage.flatImageList.length }))) ∧
    (emptyPage.flatImageList = [] ∧
      keydown "ArrowRight" emptyPage = Outcome.returned emptyPage ∧
      keydown "ArrowLeft" emptyPage = Outcome.returned emptyPage) ∧
    (focusedPage.lightbox.hidden = false ∧
      keydown "ArrowRight" focusedPage = Outcome.returned focusedPage ∧
      keydown "ArrowLeft" focusedPage = Outcome.returned focusedPage) ∧
    (keydown "ArrowRight" triplePage).state.activeIndex = 0 ∧
    (keydown "ArrowLeft" triplePage).state.activeIndex = 1 ∧
    (keydown "ArrowLeft" triplePage).state.lightbox =
      { hidden := false, src := "b", name := "b.jpg", score := some 80 } :=
  ⟨⟨rfl, by decide, by decide, by decide⟩,
    (keydown_arrows triplePage).1 rfl (by decide) (by decide) (by decide),
    ⟨rfl, (keydown_arrows emptyPage).2.1 rfl⟩,
    ⟨rfl, (keydown_arrows focusedPage).2.2 rfl⟩,
    by decide, by decide, by decide⟩

theorem NavOk.of_same (st st1 : State) (hi : st1.activeIndex = st.activeIndex)
    (hl : st1.flatImageList.length = st.flatImageList.length) (h : NavOk st) : NavOk st1 := by
  unfold NavOk at h ⊢
  rw [hi, hl]
  exact h

theorem applyLiveThreshold_nav (t : Int) (st : State) :
    (applyLiveThreshold t st).activeIndex = st.activeIndex ∧
    (applyLiveThreshold t st).flatImageList = st.flatImageList := by
  unfold applyLiveThreshold
  split <;> simp

theorem moveImage_nav (image : ImageRecord) (target : Bucket) (st : State) :
    (moveImage image target st).activeIndex = st.activeIndex ∧
    (moveImage image target st).flatImageList = st.flatImageList := by
  unfold moveImage
  split
  · simp
  · exact applyLiveThreshold_nav _ _

theorem applyFilters_nav (st : State) :
    ((applyFilters st).getD st).activeIndex = st.activeIndex ∧
    ((applyFilters st).getD st).flatImageList = st.flatImageList := by
  unfold applyFilters
  split <;> simp

theorem openActive_nav (st : State) :
    (openActive st).state.activeIndex = st.activeIndex ∧
    (openActive st).state.flatImageList = st.flatImageList := by
  unfold openActive
  split <;> simp [Outcome.state, openLightbox]

theorem openCompare_nav (img1 img2 : Option ImageRecord) (st : State) :
    (openCompare img1 img2 st).state.activeIndex = st.activeIndex ∧
    (openCompare img1 img2 st).state.flatImageList = st.flatImageList := by
  unfold openCompare
  cases img1 <;> cases img2 <;> simp [Outcome.state]

theorem compareClick_nav (st : State) :
    (compareClick st).state.activeIndex = st.activeIndex ∧
    (compareClick st).state.flatImageList = st.flatImageList := by
  unfold compareClick
  split
  · simp [Outcome.state]
  · split
    · simp [Outcome.state]
    · exact openCompare_nav _ _ st

theorem downloadImages_nav (images : List ImageRecord) (folderName : String) (st : State) :
    (downloadImages images folderName st).activeIndex = st.activeIndex ∧
    (downloadImages images folderName st).flatImageList = st.flatImageList := by
  unfold downloadImages
  split <;> simp

theorem downloadSelectedClick_nav (st : State) :
    (downloadSelectedClick st).activeIndex = st.activeIndex ∧
    (downloadSelectedClick st).flatImageList = st.flatImageList := by
  unfold downloadSelectedClick
  split
  · simp
  · exact downloadImages_nav _ _ st

theorem keydown_nav (key : String) (st : State) (h : NavOk st) :
    NavOk (keydown key st).state := by
  by_cases hid : st.lightbox.hidden = true
  · by_cases hn : st.flatImageList = []
    · have hk : keydown key st = Outcome.returned st := by
        unfold keydown
        simp [hid, hn]
      rw [hk]
      exact h
    · have hpos : 0 < st.flatImageList.length := List.length_pos.2 hn
      have hposI : (0 : Int) < (st.flatImageList.length : Int) := by omega
      have hlow : -1 ≤ st.activeIndex := by
        rcases h with h | h <;> omega
      rw [keydown_hidden_nonempty key st hid hn]
      split
      · refine Or.inr ?_
        rw [(openActive_nav _).1, (openActive_nav _).2]
        show 0 ≤ Int.tmod (st.activeIndex + 1) st.flatImageList.length ∧
          Int.tmod (st.activeIndex + 1) st.flatImageList.length < st.flatImageList.length
        rw [tmod_next_eq _ _ hlow]
        exact ⟨Int.emod_nonneg _ (by omega), Int.emod_lt_of_pos _ hposI⟩
      · refine Or.inr ?_
        rw [(openActive_nav _).1, (openActive_nav _).2]
        show 0 ≤ Int.tmod (st.activeIndex - 1 + st.flatImageList.length)
            st.flatImageList.length ∧
          Int.tmod (st.activeIndex - 1 + st.flatImageList.length) st.flatImageList.length <
            st.flatImageList.length
        rw [tmod_prev_eq _ _ hpos hlow]
        exact ⟨Int.emod_nonneg _ (by omega), Int.emod_lt_of_pos _ hposI⟩
      · split
        · exact h
        · exact NavOk.of_same st _ rfl rfl h
      all_goals exact h
  · have hk : (keydown key st).state.activeIndex = st.activeIndex ∧
        (keydown key st).state.flatImageList = st.flatImageList := by
      unfold keydown
      simp only [hid]
      by_cases he : key = "Escape" <;> simp [he, Outcome.state, closeLightbox]
    exact NavOk.of_same st _ hk.1 (by rw [hk.2]) h

theorem step_nav (ev : Event) (st : State) (h : NavOk st) : NavOk (step ev st) := by
  cases ev with
  | keydown key => exact keydown_nav key st h
  | cardClick src => exact NavOk.of_same st _ rfl rfl h
  | starClick i => exact NavOk.of_same st _ rfl rfl h
  | contextmenu => exact NavOk.of_same st _ rfl rfl h
  | sliderInput value =>
    have hn := applyLiveThreshold_nav value { st with liveThresholdSlider := value }
    exact NavOk.of_same st _ hn.1 (by rw [step, sliderInput, hn.2]) h
  | ratingChange minRating =>
    have hn := applyFilters_nav { st with ratingFilter := minRating }
    exact NavOk.of_same st _ hn.1 (by rw [step, hn.2]) h
  | labelChange label =>
    have hn := applyFilters_nav { st with labelFilter := label }
    exact NavOk.of_same st _ hn.1 (by rw [step, hn.2]) h
  | moveImage image target =>
    have hn := moveImage_nav image target st
    exact NavOk.of_same st _ hn.1 (by rw [step, hn.2]) h
  | compareClick =>
    have hn := compareClick_nav st
    exact NavOk.of_same st _ hn.1 (by rw [step, hn.2]) h
  | closeCompare => exact NavOk.of_same st _ rfl rfl h
  | closeLightbox => exact NavOk.of_same st _ rfl rfl h
  | downloadSelectedClick =>
    have hn := downloadSelectedClick_nav st
    exact NavOk.of_same st _ hn.1 (by rw [step, hn.2]) h

theorem run_nav (evs : List Event) (st : State) (h : NavOk st) : NavOk (run evs st) := by
  induction evs generalizing st with
  | nil => exact h
  | cons ev rest ih =>
    unfold run
    rw [List.foldl_cons]
    exact ih (step ev st) (step_nav ev st h)

theorem loadResults_nav (item : StorageItem) (st : State) :
    (loadResults item st).state.activeIndex = st.activeIndex ∧
    (loadResults item st).state.flatImageList = st.flatImageList := by
  unfold loadResults
  cases h : normaliseStored (getStoredData item) <;>
    simp [h, renderResults, Outcome.state]

theorem keydown_empty (key : String) (st : State) (hn : st.flatImageList = []) :
    (keydown key st).state.activeIndex = st.activeIndex ∧
    (keydown key st).state.flatImageList = st.flatImageList := by
  unfold keydown
  by_cases hid : st.lightbox.hidden = true
  · simp [hid, hn, Outcome.state]
  · by_cases he : key = "Escape" <;> simp [hid, he, Outcome.state, closeLightbox]

theorem step_idle (ev : Event) (st : State)
    (h : st.activeIndex = -1 ∧ st.flatImageList = []) :
    (step ev st).activeIndex = -1 ∧ (step ev st).flatImageList = [] := by
  have same : ∀ st1 : State, st1.activeIndex = st.activeIndex ∧
      st1.flatImageList = st.flatImageList →
      st1.activeIndex = -1 ∧ st1.flatImageList = [] := by
    intro st1 hs
    rw [hs.1, hs.2]
    exact h
  cases ev with
  | keydown key => exact same _ (keydown_empty key st h.2)
  | cardClick src => exact same _ ⟨rfl, rfl⟩
  | starClick i => exact same _ ⟨rfl, rfl⟩
  | contextmenu => exact same _ ⟨rfl, rfl⟩
  | sliderInput value =>
    exact same _ (applyLiveThreshold_nav value { st with liveThresholdSlider := value })
  | ratingChange minRating => exact same _ (applyFilters_nav { st with ratingFilter := minRating })
  | labelChange label => exact same _ (applyFilters_nav { st with labelFilter := label })
  | moveImage image target => exact same _ (moveImage_nav image target st)
  | compareClick => exact same _ (compareClick_nav st)
  | closeCompare => exact same _ ⟨rfl, rfl⟩
  | closeLightbox => exact same _ ⟨rfl, rfl⟩
  | downloadSelectedClick => exact same _ (downloadSelectedClick_nav st)

theorem run_idle (evs : List Event) (st : State)
    (h : st.activeIndex = -1 ∧ st.flatImageList = []) :
    (run evs st).activeIndex = -1 ∧ (run evs st).flatImageList = [] := by
  induction evs generalizing st with
  | nil => exact h
  | cons ev rest ih =>
    unfold run
    rw [List.foldl_cons]
    exact ih (step ev st) (step_idle ev st h)

/-- C12: in every state reached from `loadResults()` (on any storage content, from the
initial module state) by any sequence of key presses, card clicks, star clicks, label
gestures, slider inputs, filter changes, moves, compare and download clicks,
`activeIndex` is `-1` or satisfies `0 <= activeIndex < flatImageList.length`; in fact
`loadResults()` ends before `rebuildFlatList()`, the flat list stays empty and
`activeIndex` stays `-1`. From any state `st` in which `activeIndex` is `-1` or an index of
the flat list (such as one left by a call of `rebuildFlatList()`), every sequence of
these events keeps it so, and a focused `flatImageList[activeIndex]` is a record. -/
theorem navigator_index_in_range (item : StorageItem) (thresholdItem : Option Int)
    (minRating : Nat) (label : String) (evs : List Event) (st : State) :
    ((run evs (loadResults item (initialState thresholdItem minRating label)).state).activeIndex
        = -1 ∨
      (0 ≤ (run evs
          (loadResults item (initialState thresholdItem minRating label)).state).activeIndex ∧
        (run evs (loadResults item (initialState thresholdItem minRating label)).state).activeIndex
          < (run evs (loadResults item
              (initialState thresholdItem minRating label)).state).flatImageList.length)) ∧
    ((run evs (loadResults item (initialState thresholdItem minRating label)).state).activeIndex
        = -1 ∧
      (run evs (loadResults item
        (initialState thresholdItem minRating label)).state).flatImageList = []) ∧
    ((st.activeIndex = -1 ∨ (0 ≤ st.activeIndex ∧ st.activeIndex < st.flatImageList.length)) →
      ((run evs st).activeIndex = -1 ∨
        (0 ≤ (run evs st).activeIndex ∧
          (run evs st).activeIndex < (run evs st).flatImageList.length)) ∧
      ((run evs st).activeIndex = -1 ∨
        ∃ r, jsIndex (run evs st).flatImageList (run evs st).activeIndex = some r)) := by
  have hl := loadResults_nav item (initialState thresholdItem minRating label)
  have h0 : (loadResults item (initialState thresholdItem minRating label)).state.activeIndex
        = -1 ∧
      (loadResults item (initialState thresholdItem minRating label)).state.flatImageList
        = [] := by
    rw [hl.1, hl.2]
    exact ⟨rfl, rfl⟩
  have hidle := run_idle evs _ h0
  refine ⟨Or.inl hidle.1, hidle, ?_⟩
  intro hst
  have h : NavOk (run evs st) := run_nav evs st hst
  refine ⟨h, ?_⟩
  rcases h with h | h
  · exact Or.inl h
  · exact Or.inr (jsIndex_of_lt _ _ h.1 h.2)

/-- Instance of C12: after `loadResults()` on the stored three-record snapshot the flat
list is empty and every key leaves the navigator idle; on the three-record page whose
flat list was rebuilt, `ArrowLeft` from idle focuses index 1, and after closing the
lightbox, filtering by rating 3, a slider input and `ArrowRight` the index is 2, within
the flat list. -/
theorem navigator_index_in_range_witness :
    (run [Event.keydown "ArrowLeft", Event.closeLightbox, Event.ratingChange 3,
        Event.sliderInput 90, Event.keydown "ArrowRight"]
      (loadResults storedTriple (initialState (some 50) 0 "all")).state).activeIndex = -1 ∧
    (run [Event.keydown "ArrowLeft", Event.closeLightbox, Event.ratingChange 3,
        Event.sliderInput 90, Event.keydown "ArrowRight"]
      (loadResults storedTriple (initialState (some 50) 0 "all")).state).flatImageList = [] ∧
    (triplePage.activeIndex = -1 ∨
      (0 ≤ triplePage.activeIndex ∧
        triplePage.activeIndex < triplePage.flatImageList.length)) ∧
    (run [Event.keydown "ArrowLeft", Event.closeLightbox, Event.ratingChange 3,
        Event.sliderInput 90, Event.keydown "ArrowRight"] triplePage).activeIndex = 2 ∧
    (run [Event.keydown "ArrowLeft", Event.closeLightbox, Event.ratingChange 3,
        Event.sliderInput 90, Event.keydown "ArrowRight"] triplePage).flatImageList =
      [recA, recB, recC] ∧
    ((run [Event.keydown "ArrowLeft", Event.closeLightbox, Event.ratingChange 3,
        Event.sliderInput 90, Event.keydown "ArrowRight"] triplePage).activeIndex = -1 ∨
      ∃ r, jsIndex
        (run [Event.keydown "ArrowLeft", Event.closeLightbox, Event.ratingChange 3,
          Event.sliderInput 90, Event.keydown "ArrowRight"] triplePage).flatImageList
        (run [Event.keydown "ArrowLeft", Event.closeLightbox, Event.ratingChange 3,
          Event.sliderInput 90, Event.keydown "ArrowRight"] triplePage).activeIndex =
        some r) :=
  ⟨(navigator_index_in_range storedTriple (some 50) 0 "all"
      [Event.keydown "ArrowLeft", Event.closeLightbox, Event.ratingChange 3,
        Event.sliderInput 90, Event.keydown "ArrowRight"] triplePage).2.1.1,
    (navigator_index_in_range storedTriple (some 50) 0 "all"
      [Event.keydown "ArrowLeft", Event.closeLightbox, Event.ratingChange 3,
        Event.sliderInput 90, Event.keydown "ArrowRight"] triplePage).2.1.2,
    Or.inl rfl, by decide, by decide,
    ((navigator_index_in_range storedTriple (some 50) 0 "all"
      [Event.keydown "ArrowLeft", Event.closeLightbox, Event.ratingChange 3,
        Event.sliderInput 90, Event.keydown "ArrowRight"] triplePage).2.2 (Or.inl rfl)).2⟩

/-! ## Derived statistics -/

theorem foldl_sumScores (l : List ImageRecord) (a : Int)
    (hs : ∀ r ∈ l, ∃ s, r.score = some s) :
    l.foldl
      (fun sum img =>
        match sum, img.score with
        | some a, some b => some (a + b)
        | _, _ => none)
      (some a) = some (a + (l.map (fun r => r.score.getD 0)).sum) := by
  induction l generalizing a with
  | nil => simp
  | cons x xs ih =>
    obtain ⟨s, hx⟩ := hs x (List.mem_cons_self x xs)
    rw [List.foldl_cons]
    simp only [hx]
    rw [ih (a + s) (fun r hr => hs r (List.mem_cons_of_mem x hr))]
    simp [hx, add_assoc]

theorem sumScores_eq (l : List ImageRecord) (hs : ∀ r ∈ l, ∃ s, r.score = some s) :
    sumScores l = some (l.map (fun r => r.score.getD 0)).sum := by
  unfold sumScores
  rw [foldl_sumScores l 0 hs]
  simp

theorem mathRoundDiv_bounds (sum : Int) (total : Nat) (ht : 0 < total) :
    2 * (total : Int) * mathRoundDiv sum total ≤ 2 * sum + total ∧
    2 * sum + total < 2 * (total : Int) * (mathRoundDiv sum total + 1) := by
  unfold mathRoundDiv
  have hpos : (0 : Int) < 2 * (total : Int) := by omega
  have h1 := Int.ediv_mul_le (2 * sum + total) (ne_of_gt hpos)
  have h2 := Int.lt_ediv_add_one_mul_self (2 * sum + total) hpos
  constructor
  · linarith
  · linarith

theorem mathRoundDiv_eq_floor (sum : Int) (total : Nat) (ht : 0 < total) :
    mathRoundDiv sum total = ⌊(sum : ℚ) / (total : ℚ) + 1 / 2⌋ := by
  unfold mathRoundDiv
  have hq : (total : ℚ) ≠ 0 := by exact_mod_cast (Nat.pos_iff_ne_zero.1 ht)
  have e : (sum : ℚ) / (total : ℚ) + 1 / 2 =
      ((2 * sum + total : ℤ) : ℚ) / ((2 * total : ℕ) : ℚ) := by
    push_cast
    field_simp
    ring
  rw [e, Rat.floor_intCast_div_natCast]
  push_cast
  rfl

theorem sum_scores_bounds (l : List ImageRecord)
    (hs : ∀ r ∈ l, ∃ s, r.score = some s ∧ 0 ≤ s ∧ s ≤ 100) :
    0 ≤ (l.map (fun r => r.score.getD 0)).sum ∧
    (l.map (fun r => r.score.getD 0)).sum ≤ 100 * (l.length : Int) := by
  induction l with
  | nil => simp
  | cons x xs ih =>
    obtain ⟨s, hx, h0, h1⟩ := hs x (List.mem_cons_self x xs)
    have ih2 := ih (fun r hr => hs r (List.mem_cons_of_mem x hr))
    simp only [List.map_cons, List.sum_cons, List.length_cons, hx, Option.getD_some]
    push_cast
    constructor <;> linarith [ih2.1, ih2.2]

/-- C13: for a Current View `v` whose records all carry an integer score from 0 to 100,
with fewer than `2 ^ 32` records, `updateSummary()` (and `updateStats()`) report
`total = sharp.length + blurry.length`; when the total is positive the average text is
the integer nearest to `sum of scores / total`, a half rounding up, a number from 0 to
100; when the total is 0 the average text is the dash, not a number. The sum of the
scores is below `2 ^ 39`, so every number of the computation is exact in the source. -/
theorem updateSummary_reports (st : State) (v : Snapshot) (hv : st.results = some v)
    (hs : ∀ r ∈ v.sharp ++ v.blurry, ∃ s, r.score = some s ∧ 0 ≤ s ∧ s ≤ 100)
    (hsize : v.sharp.length + v.blurry.length < 2 ^ 32) :
    ∃ txt stats, updateSummary st = some txt ∧ updateStats st = some stats ∧
      txt.total = v.sharp.length + v.blurry.length ∧
      stats.total = v.sharp.length + v.blurry.length ∧
      (v.sharp.length + v.blurry.length = 0 → txt.average = AverageText.dash) ∧
      (0 < v.sharp.length + v.blurry.length →
        ∃ avg : Int, txt.average = AverageText.value (some avg) ∧
          avg = ⌊((((v.sharp ++ v.blurry).map (fun r => r.score.getD 0)).sum : Int) : ℚ) /
            ((v.sharp.length + v.blurry.length : Nat) : ℚ) + 1 / 2⌋ ∧
          2 * ((v.sharp.length + v.blurry.length : Nat) : Int) * avg ≤
            2 * ((v.sharp ++ v.blurry).map (fun r => r.score.getD 0)).sum +
              ((v.sharp.length + v.blurry.length : Nat) : Int) ∧
          2 * ((v.sharp ++ v.blurry).map (fun r => r.score.getD 0)).sum +
              ((v.sharp.length + v.blurry.length : Nat) : Int) <
            2 * ((v.sharp.length + v.blurry.length : Nat) : Int) * (avg + 1) ∧
          0 ≤ avg ∧ avg ≤ 100) ∧
      0 ≤ ((v.sharp ++ v.blurry).map (fun r => r.score.getD 0)).sum ∧
      ((v.sharp ++ v.blurry).map (fun r => r.score.getD 0)).sum < 2 ^ 39 := by
  have hlen : (v.sharp ++ v.blurry).length = v.sharp.length + v.blurry.length :=
    List.length_append _ _
  have hsome : ∀ r ∈ v.sharp ++ v.blurry, ∃ s, r.score = some s := by
    intro r hr
    obtain ⟨s, h1, _⟩ := hs r hr
    exact ⟨s, h1⟩
  have hsum := sum_scores_bounds (v.sharp ++ v.blurry) hs
  rw [hlen] at hsum
  have hsizeI : ((v.sharp.length + v.blurry.length : Nat) : Int) < 2 ^ 32 := by
    exact_mod_cast hsize
  refine ⟨_, _, by rw [updateSummary, hv], by rw [updateStats, hv], ?_, rfl, ?_, ?_, hsum.1, ?_⟩
  · exact hlen
  · intro h0
    simp [hlen, h0]
  · intro hpos
    have hb := mathRoundDiv_bounds ((v.sharp ++ v.blurry).map (fun r => r.score.getD 0)).sum
      (v.sharp.length + v.blurry.length) hpos
    have hposI : (0 : Int) < ((v.sharp.length + v.blurry.length : Nat) : Int) := by
      exact_mod_cast hpos
    refine ⟨mathRoundDiv ((v.sharp ++ v.blurry).map (fun r => r.score.getD 0)).sum
      (v.sharp.length + v.blurry.length), ?_, mathRoundDiv_eq_floor _ _ hpos,
      hb.1, hb.2, ?_, ?_⟩
    · have hne : v.sharp.length + v.blurry.length ≠ 0 := Nat.pos_iff_ne_zero.1 hpos
      simp only [hlen, sumScores_eq _ hsome, hpos, hne, if_true, ne_eq, not_false_eq_true,
        Option.map_some', gt_iff_lt]
    · by_contra hneg
      have h1 : mathRoundDiv ((v.sharp ++ v.blurry).map (fun r => r.score.getD 0)).sum
          (v.sharp.length + v.blurry.length) + 1 ≤ 0 := by omega
      nlinarith [hb.2, hsum.1]
    · by_contra hbig
      have h1 : 101 ≤ mathRoundDiv ((v.sharp ++ v.blurry).map (fun r => r.score.getD 0)).sum
          (v.sharp.length + v.blurry.length) := by omega
      nlinarith [hb.1, hsum.2]
  · have h39 : (100 : Int) * 2 ^ 32 < 2 ^ 39 := by norm_num
    linarith [hsum.2]

/-- Scenario of the specification for C13: a view with one record of score 80 reports
total 1 and average 80; the empty view reports total 0 and the dash. -/
theorem updateSummary_reports_witness :
    updateSummary singlePage =
      some { total := 1, sharp := 1, blurry := 0, average := AverageText.value (some 80) } ∧
    updateSummary emptyPage =
      some { total := 0, sharp := 0, blurry := 0, average := AverageText.dash } ∧
    singlePage.results = some { sharp := [recB], blurry := [] } ∧
    (∀ r ∈ [recB] ++ ([] : List ImageRecord), ∃ s, r.score = some s ∧ 0 ≤ s ∧ s ≤ 100) ∧
    [recB].length + ([] : List ImageRecord).length < 2 ^ 32 ∧
    ∃ txt stats, updateSummary singlePage = some txt ∧ updateStats singlePage = some stats ∧
      txt.total = [recB].length + ([] : List ImageRecord).length ∧
      stats.total = [recB].length + ([] : List ImageRecord).length ∧
      ([recB].length + ([] : List ImageRecord).length = 0 → txt.average = AverageText.dash) ∧
      (0 < [recB].length + ([] : List ImageRecord).length →
        ∃ avg : Int, txt.average = AverageText.value (some avg) ∧
          avg = ⌊(((([recB] ++ ([] : List ImageRecord)).map
              (fun r => r.score.getD 0)).sum : Int) : ℚ) /
            (([recB].length + ([] : List ImageRecord).length : Nat) : ℚ) + 1 / 2⌋ ∧
          2 * (([recB].length + ([] : List ImageRecord).length : Nat) : Int) * avg ≤
            2 * (([recB] ++ ([] : List ImageRecord)).map (fun r => r.score.getD 0)).sum +
              (([recB].length + ([] : List ImageRecord).length : Nat) : Int) ∧
          2 * (([recB] ++ ([] : List ImageRecord)).map (fun r => r.score.getD 0)).sum +
              (([recB].length + ([] : List ImageRecord).length : Nat) : Int) <
            2 * (([recB].length + ([] : List ImageRecord).length : Nat) : Int) * (avg + 1) ∧
          0 ≤ avg ∧ avg ≤ 100) ∧
      0 ≤ (([recB] ++ ([] : List ImageRecord)).map (fun r => r.score.getD 0)).sum ∧
      (([recB] ++ ([] : List ImageRecord)).map (fun r => r.score.getD 0)).sum < 2 ^ 39 :=
  ⟨by decide, by decide, rfl, by simp [recB], by decide,
    updateSummary_reports singlePage { sharp := [recB], blurry := [] } rfl (by simp [recB])
      (by decide)⟩

/-! ## Selection, compare and download -/

/-- C14 evaluated: on the three-record page with `a` and `b` selected the compare click
opens the overlay on `a` and `b`; after the rating filter 3 removed `a` from the view,
the selection still has 2 entries, and the compare click writes the first image, raises
a `TypeError` on the missing second one and leaves the overlay hidden, with no notice. -/
theorem compareClick_two_selected_throws :
    selectedPage.selectedImages = ["a", "b"] ∧ setSize selectedPage.selectedImages = 2 ∧
    selectedPage.results = some { sharp := [recB], blurry := [] } ∧
    compareClick selectedPage =
      Outcome.threw { selectedPage with
        compareOverlay := { selectedPage.compareOverlay with img1 := "b" } } ∧
    (compareClick selectedPage).state.compareOverlay.hidden = true ∧
    (compareClick selectedPage).state.toasts = [] ∧
    (compareClick (run [Event.cardClick "a", Event.cardClick "b"] triplePage)).state.compareOverlay =
      { hidden := false, img1 := "a", img2 := "b", caption1 := ("a.jpg", some 10),
        caption2 := ("b.jpg", some 80) } ∧
    compareClick triplePage =
      Outcome.returned { triplePage with
        toasts := [("Select exactly 2 images to compare", "info")] } := by
  decide

theorem setSize_eq_zero (selected : List String) : setSize selected = 0 ↔ selected = [] := by
  unfold setSize
  rw [List.length_eq_zero, List.dedup_eq_nil]

/-- C15: with an empty Selection Set the download-selected click only adds the notice
`"No images selected"` (no save, every other part of the state unchanged); with a
non-empty Selection Set and a view `v` it adds exactly one save per record of
`v.sharp ++ v.blurry` whose source reference is selected, in that order, each pointing at
the record's source, and nothing else changes; selected references absent from the view
produce no save. -/
theorem downloadSelectedClick_saves (st : State) :
    (st.selectedImages = [] →
      downloadSelectedClick st =
        { st with toasts := st.toasts ++ [("No images selected", "error")] }) ∧
    (st.selectedImages ≠ [] → ∀ v, st.results = some v →
      ∃ newSaves, downloadSelectedClick st = { st with saves := st.saves ++ newSaves } ∧
        newSaves.map (fun x => x.href) =
          ((v.sharp ++ v.blurry).filter (fun r => decide (r.src ∈ st.selectedImages))).map
            (fun r => r.src)) := by
  constructor
  · intro hnil
    unfold downloadSelectedClick
    rw [if_pos ((setSize_eq_zero _).2 hnil)]
  · intro hne v hv
    have hsz : ¬ setSize st.selectedImages = 0 := fun hc => hne ((setSize_eq_zero _).1 hc)
    have hfun : (fun img : ImageRecord => setHas st.selectedImages img.src) =
        (fun r => decide (r.src ∈ st.selectedImages)) := by
      funext r
      simp [setHas]
    have hcomp : ((fun x : Save => x.href) ∘ fun p : Nat × ImageRecord =>
        ({ href := p.2.src,
           download :=
            if p.2.name = "" then "CullAI_Selected" ++ "_" ++ toString (p.1 + 1) ++ ".jpg"
            else p.2.name } : Save)) = (fun r : ImageRecord => r.src) ∘ Prod.snd := by
      funext p
      rfl
    cases st with
    | mk o r f a sel sl rf lf lb co ts sv =>
      simp only at hv hsz hfun
      subst hv
      unfold downloadSelectedClick
      simp only [if_neg hsz, hfun]
      unfold downloadImages
      split
      · rename_i hlen
        refine ⟨[], by simp, ?_⟩
        rw [List.length_eq_zero.1 hlen]
        rfl
      · refine ⟨_, rfl, ?_⟩
        rw [List.map_map, hcomp, ← List.map_map, List.enum_map_snd]

/-- Instances of C15: with nothing selected the click only adds the notice; with `a` and
`b` selected while only `b` is shown, it saves `b` once and ignores `a`. -/
theorem downloadSelectedClick_saves_witness :
    triplePage.selectedImages = [] ∧
    downloadSelectedClick triplePage =
      { triplePage with toasts := triplePage.toasts ++ [("No images selected", "error")] } ∧
    selectedPage.selectedImages ≠ [] ∧
    selectedPage.results = some { sharp := [recB], blurry := [] } ∧
    (∃ newSaves,
      downloadSelectedClick selectedPage =
        { selectedPage with saves := selectedPage.saves ++ newSaves } ∧
      newSaves.map (fun x => x.href) =
        (([recB] ++ ([] : List ImageRecord)).filter
          (fun r => decide (r.src ∈ selectedPage.selectedImages))).map (fun r => r.src)) ∧
    (downloadSelectedClick selectedPage).saves = [{ href := "b", download := "b.jpg" }] :=
  ⟨rfl, (downloadSelectedClick_saves triplePage).1 rfl, by decide, by decide,
    (downloadSelectedClick_saves selectedPage).2 (by decide)
      { sharp := [recB], blurry := [] } (by decide),
    by decide⟩

theorem mem_toggleSelected (src x : String) (selected : List String) :
    x ∈ toggleSelected src selected ↔
      (x ∈ selected ∧ x ≠ src) ∨ (x = src ∧ src ∉ selected) := by
  unfold toggleSelected setHas
  by_cases h : src ∈ selected
  · simp [h]
  · simp [h]
    constructor
    · rintro (hx | hx)
      · exact Or.inl ⟨hx, fun hc => h (hc ▸ hx)⟩
      · exact Or.inr hx
    · rintro (hx | hx)
      · exact Or.inl hx.1
      · exact Or.inr hx

/-- C16: a click on the card of `src` adds `src` to the Selection Set if it was absent and
removes it if it was present, leaves the membership of every other reference as it was,
and two clicks restore the set; the click changes neither the Original Snapshot nor
the Current View. The space key, with the lightbox hidden and a record at
`flatImageList[activeIndex]`, does the same for the source reference of that record. -/
theorem toggle_selection (st : State) (src : String) :
    (src ∉ st.selectedImages → src ∈ (cardClick src st).selectedImages) ∧
    (src ∈ st.selectedImages → src ∉ (cardClick src st).selectedImages) ∧
    (∀ x, x ≠ src → (x ∈ (cardClick src st).selectedImages ↔ x ∈ st.selectedImages)) ∧
    (∀ x, x ∈ (cardClick src (cardClick src st)).selectedImages ↔ x ∈ st.selectedImages) ∧
    (st.selectedImages.Nodup → (cardClick src st).selectedImages.Nodup) ∧
    (cardClick src st).original = st.original ∧
    (cardClick src st).results = st.results ∧
    (∀ current, st.lightbox.hidden = true →
      jsIndex st.flatImageList st.activeIndex = some current →
      keydown " " st = Outcome.returned (cardClick current.src st)) := by
  refine ⟨?_, ?_, ?_, ?_, ?_, rfl, rfl, ?_⟩
  · intro h
    exact (mem_toggleSelected src src _).2 (Or.inr ⟨rfl, h⟩)
  · intro h hc
    rcases (mem_toggleSelected src src _).1 hc with h1 | h1
    · exact h1.2 rfl
    · exact h1.2 h
  · intro x hx
    show x ∈ toggleSelected src st.selectedImages ↔ _
    rw [mem_toggleSelected]
    constructor
    · rintro (h1 | h1)
      · exact h1.1
      · exact absurd h1.1 hx
    · intro h1
      exact Or.inl ⟨h1, hx⟩
  · intro x
    show x ∈ toggleSelected src (toggleSelected src st.selectedImages) ↔ _
    rw [mem_toggleSelected, mem_toggleSelected, mem_toggleSelected]
    by_cases hx : x = src
    · subst hx
      by_cases hm : x ∈ st.selectedImages <;> simp [hm]
    · simp [hx]
  · intro hnd
    show (toggleSelected src st.selectedImages).Nodup
    unfold toggleSelected setHas
    by_cases h : src ∈ st.selectedImages
    · have hc : st.selectedImages.contains src = true := by simpa using h
      rw [if_pos hc]
      exact hnd.filter _
    · have hc : ¬ st.selectedImages.contains src = true := by simpa using h
      rw [if_neg hc]
      exact List.Nodup.append hnd (List.nodup_singleton src)
        (by
          intro a ha hb
          rw [List.mem_singleton] at hb
          exact h (hb ▸ ha))
  · intro current hid hcur
    have hn : st.flatImageList ≠ [] := by
      intro hc
      rw [hc] at hcur
      unfold jsIndex at hcur
      split at hcur <;> simp at hcur
    rw [keydown_hidden_nonempty " " st hid hn]
    simp only [hcur]
    rfl

/-- Instance of C16 on the three-record page: clicking the card of `a` selects it, a
second click deselects it, and with `a` focused (lightbox closed again) the space key
selects `a`. -/
theorem toggle_selection_witness :
    (cardClick "a" triplePage).selectedImages = ["a"] ∧
    (cardClick "a" (cardClick "a" triplePage)).selectedImages = [] ∧
    "a" ∉ triplePage.selectedImages ∧ "a" ∈ (cardClick "a" triplePage).selectedImages ∧
    (closeLightbox focusedPage).lightbox.hidden = true ∧
    jsIndex (closeLightbox focusedPage).flatImageList (closeLightbox focusedPage).activeIndex =
      some recA ∧
    keydown " " (closeLightbox focusedPage) =
      Outcome.returned (cardClick recA.src (closeLightbox focusedPage)) :=
  ⟨by decide, by decide, by decide,
    (toggle_selection triplePage "a").1 (by decide),
    rfl, by decide,
    (toggle_selection (closeLightbox focusedPage) "a").2.2.2.2.2.2.2 recA rfl (by decide)⟩

/-! ## Labels and ratings -/

/-- C17 evaluated: the expression of the label listener maps no label to green, green
to yellow, yellow to red and red to no label, but the listener ends in a
`ReferenceError` at `image.label` before its write, so a gesture changes no label: on
the three-record page `a` has no label before and after one gesture and after four, in
snapshot, view and flat list. -/
theorem label_gesture_writes_nothing (st : State) :
    nextLabel none = some "green" ∧ nextLabel (some "green") = some "yellow" ∧
    nextLabel (some "yellow") = some "red" ∧ nextLabel (some "red") = none ∧
    contextmenu st = Outcome.threw st ∧
    step Event.contextmenu st = st ∧
    recA.label = none ∧ recA ∈ triplePage.flatImageList ∧
    step Event.contextmenu triplePage = triplePage ∧
    (step Event.contextmenu triplePage).original =
      some { sharp := [recA], blurry := [recB, recC] } ∧
    (step Event.contextmenu triplePage).results =
      some { sharp := [recA], blurry := [recB, recC] } ∧
    (step Event.contextmenu triplePage).flatImageList = [recA, recB, recC] ∧
    run [Event.contextmenu, Event.contextmenu, Event.contextmenu, Event.contextmenu]
      triplePage = triplePage := by
  refine ⟨by decide, by decide, by decide, by decide, rfl, rfl, rfl, by decide, rfl, rfl, rfl,
    rfl, rfl⟩

/-- C19 evaluated: a digit key never changes the page. With `a` focused and the lightbox
closed, the key `3` raises a `ReferenceError` and the rating of `a` stays 0; while the
lightbox is open the listener returns before its `switch`. -/
theorem digit_key_sets_no_rating (st : State) :
    (keydown "1" st).state = st ∧ (keydown "2" st).state = st ∧ (keydown "3" st).state = st ∧
    (keydown "4" st).state = st ∧ (keydown "5" st).state = st ∧
    jsIndex (closeLightbox focusedPage).flatImageList (closeLightbox focusedPage).activeIndex =
      some recA ∧
    (closeLightbox focusedPage).lightbox.hidden = true ∧
    keydown "3" (closeLightbox focusedPage) = Outcome.threw (closeLightbox focusedPage) ∧
    keydown "3" focusedPage = Outcome.returned focusedPage ∧
    recA.rating = 0 := by
  have key : ∀ k : String, (k = "1" ∨ k = "2" ∨ k = "3" ∨ k = "4" ∨ k = "5") →
      (keydown k st).state = st := by
    intro k hk
    by_cases hid : st.lightbox.hidden = true
    · by_cases hn : st.flatImageList = []
      · unfold keydown
        simp [hid, hn, Outcome.state]
      · rw [keydown_hidden_nonempty k st hid hn]
        rcases hk with h | h | h | h | h <;> subst h <;> rfl
    · unfold keydown
      rcases hk with h | h | h | h | h <;> subst h <;> simp [hid, Outcome.state]
  refine ⟨key _ (by simp), key _ (by simp), key _ (by simp), key _ (by simp), key _ (by simp),
    by decide, rfl, by decide, by decide, rfl⟩

/-! ## Start-up from storage -/

/-- C18 evaluated: when the results key is absent, is not JSON, holds `null`, or holds an
object without a `sharp` or without a `blurry` array, `loadResults()` raises a `TypeError`
in its first loop and writes nothing, so the demo snapshot (3 sharp and 2 blurry
records) is never installed: the fallback test holds exactly for the values on which
that loop has already thrown. A stored snapshot with both arrays is installed
(normalised) as snapshot and view, after which `renderResults` ends the function before
the flat list is rebuilt. -/
theorem loadResults_throws_without_snapshot (st : State) :
    loadResults StorageItem.absent st = Outcome.threw st ∧
    loadResults StorageItem.malformed st = Outcome.threw st ∧
    loadResults (StorageItem.json StoredValue.null) st = Outcome.threw st ∧
    (∀ blurry, loadResults (StorageItem.json (StoredValue.object none blurry)) st =
      Outcome.threw st) ∧
    (∀ sharp, loadResults (StorageItem.json (StoredValue.object (some sharp) none)) st =
      Outcome.threw st) ∧
    (∀ value, lacksBuckets value = true ↔ normaliseStored value = none) ∧
    (∀ sharp blurry,
      loadResults (StorageItem.json (StoredValue.object (some sharp) (some blurry))) st =
        Outcome.threw { st with
          original := some { sharp := sharp.map normalise, blurry := blurry.map normalise },
          results := some { sharp := sharp.map normalise, blurry := blurry.map normalise } }) ∧
    (loadResults StorageItem.absent (initialState none 0 "all")).state.original = none ∧
    (loadResults StorageItem.absent (initialState none 0 "all")).state.results = none ∧
    getMockResults.sharp.length = 3 ∧ getMockResults.blurry.length = 2 ∧
    (loadResults storedTriple (initialState (some 50) 0 "all")).state.original =
      some { sharp := [recA], blurry := [recB, recC] } ∧
    (loadResults storedTriple (initialState (some 50) 0 "all")).state.flatImageList = [] := by
  refine ⟨rfl, rfl, rfl, fun _ => rfl, fun _ => rfl, ?_, fun _ _ => rfl, rfl, rfl, by decide,
    by decide, by decide, by decide⟩
  intro value
  cases value with
  | null => simp [lacksBuckets, normaliseStored]
  | object sharp blurry =>
    cases sharp <;> cases blurry <;> simp [lacksBuckets, normaliseStored]

/-- C20 evaluated: a persisted threshold of 0 is read back as 50; the thresholds 1, 50
and 100 are read back as stored, and a missing item gives 50. -/
theorem savedThreshold_zero :
    savedThreshold (persistThreshold 0) = 50 ∧
    (initialState (persistThreshold 0) 0 "all").liveThresholdSlider = 50 ∧
    savedThreshold (persistThreshold 1) = 1 ∧ savedThreshold (persistThreshold 50) = 50 ∧
    savedThreshold (persistThreshold 100) = 100 ∧ savedThreshold none = 50 := by
  decide

/-! ## Upload validation -/

theorem bytesToMB_gt_iff (bytes : Nat) : bytesToMB bytes > 100 * MAX_SIZE_MB ↔ 10491003 ≤ bytes := by
  unfold bytesToMB MAX_SIZE_MB
  omega

/-- C21 evaluated: a single image of 10 MB and one byte (10485761 bytes) exceeds
`10 * 1024 * 1024` bytes, yet `validateFiles` returns `true`, clears the error and
`handleFiles` replaces the selection by it; sizes up to 10491002 bytes pass and 10491003
is the first rejected. In general `validateFiles` accepts exactly the lists of at most
20 files, of total size at most 10491002 bytes, whose types all start with `image/`,
and `handleFiles` keeps the earlier selection exactly when `validateFiles` rejects. -/
theorem validateFiles_accepts_over_limit :
    totalSize [bigFile] = 10485761 ∧ totalSize [bigFile] > 10 * 1024 * 1024 ∧
    validateFiles [bigFile] uploadPage = (true, { uploadPage with uploadError := none }) ∧
    (handleFiles [bigFile] uploadPage).selectedFiles = [bigFile] ∧
    (validateFiles [{ bigFile with size := 10491002 }] uploadPage).1 = true ∧
    validateFiles [{ bigFile with size := 10491003 }] uploadPage =
      (false, { uploadPage with uploadError := some "Total size must be under 10 MB." }) ∧
    handleFiles [{ bigFile with size := 10491003 }] uploadPage =
      { uploadPage with uploadError := some "Total size must be under 10 MB." } ∧
    (∀ (files : List UploadFile) (st : UploadState),
      (validateFiles files st).1 = true ↔
        files.length ≤ 20 ∧ totalSize files ≤ 10491002 ∧
          ∀ f ∈ files, jsStartsWith f.type "image/" = true) ∧
    (∀ (files : List UploadFile) (st : UploadState),
      (handleFiles files st).selectedFiles =
        if (validateFiles files st).1 = true then files else st.selectedFiles) := by
  refine ⟨by decide, by decide, by decide, by decide, by decide, by decide, by decide, ?_, ?_⟩
  · intro files st
    unfold validateFiles
    by_cases h1 : files.length > MAX_FILES
    · have h1b : ¬ files.length ≤ 20 := by
        unfold MAX_FILES at h1
        omega
      simp [h1, h1b]
    · have h1b : files.length ≤ 20 := by
        unfold MAX_FILES at h1
        omega
      by_cases h2 : bytesToMB (totalSize files) > 100 * MAX_SIZE_MB
      · have h2b : ¬ totalSize files ≤ 10491002 := by
          have := (bytesToMB_gt_iff _).1 h2
          omega
        simp [h1, h2, h2b]
      · have h2b : totalSize files ≤ 10491002 := by
          by_contra hc
          exact h2 ((bytesToMB_gt_iff _).2 (by omega))
        by_cases h3 : files.any (fun f => !jsStartsWith f.type "image/") = true
        · have h3b : ¬ ∀ f ∈ files, jsStartsWith f.type "image/" = true := by
            intro hc
            obtain ⟨f, hf, hfn⟩ := List.any_eq_true.1 h3
            simp [hc f hf] at hfn
          simp only [h1, h2, h3, if_true, if_false]
          simp [h3b]
        · have h3b : ∀ f ∈ files, jsStartsWith f.type "image/" = true := by
            intro f hf
            by_contra hc
            exact h3 (List.any_eq_true.2 ⟨f, hf, by simp [hc]⟩)
          simp only [h1, h2, h3, if_false]
          exact ⟨fun _ => ⟨h1b, h2b, h3b⟩, fun _ => rfl⟩
  · intro files st
    unfold handleFiles
    by_cases hv : (validateFiles files st).1 = true
    · simp [hv]
    · have hf : (validateFiles files st).1 = false := by simpa using hv
      have hs : (validateFiles files st).2.selectedFiles = st.selectedFiles := by
        unfold validateFiles
        split
        · rfl
        · split
          · rfl
          · split <;> rfl
      simp [hf, hs]

/-! ## Monotonicity of re-bucketing -/

theorem scoreGe_mono (score : Option Int) (t1 t2 : Int) (hle : t1 ≤ t2)
    (h : scoreGe score t2 = true) : scoreGe score t1 = true := by
  cases score with
  | none => simp [scoreGe] at h
  | some v =>
    simp only [scoreGe, decide_eq_true_eq] at h ⊢
    omega

/-- C22: with a snapshot `o` installed and thresholds `t1 <= t2`, every record in sharp
after `applyLiveThreshold(t2)` is in sharp after `applyLiveThreshold(t1)` (in the same
order) and every record in blurry after `t1` is in blurry after `t2`, and both views
hold as many records as the snapshot. -/
theorem applyLiveThreshold_monotone (st : State) (o : Snapshot) (t1 t2 : Int)
    (h : st.original = some o) (hle : t1 ≤ t2) :
    ∃ v1 v2, (applyLiveThreshold t1 st).results = some v1 ∧
      (applyLiveThreshold t2 st).results = some v2 ∧
      (∀ r ∈ v2.sharp, r ∈ v1.sharp) ∧ (∀ r ∈ v1.blurry, r ∈ v2.blurry) ∧
      List.Sublist v2.sharp v1.sharp ∧ List.Sublist v1.blurry v2.blurry ∧
      v1.sharp.length + v1.blurry.length = o.sharp.length + o.blurry.length ∧
      v2.sharp.length + v2.blurry.length = o.sharp.length + o.blurry.length := by
  have hs : List.Sublist (specRebucket o.all t2).sharp (specRebucket o.all t1).sharp :=
    List.monotone_filter_right o.all (fun r hr => scoreGe_mono r.score t1 t2 hle hr)
  have hb : List.Sublist (specRebucket o.all t1).blurry (specRebucket o.all t2).blurry := by
    refine List.monotone_filter_right o.all (fun r hr => ?_)
    by_contra hc
    have h2 : scoreGe r.score t2 = true := by simpa using hc
    have h1 := scoreGe_mono r.score t1 t2 hle h2
    simp [h1] at hr
  have hlen : ∀ t, (specRebucket o.all t).sharp.length + (specRebucket o.all t).blurry.length =
      o.sharp.length + o.blurry.length := by
    intro t
    have hp := (List.filter_append_perm (fun i => scoreGe i.score t) o.all).length_eq
    rw [List.length_append] at hp
    rw [show o.all = o.sharp ++ o.blurry from rfl, List.length_append] at hp
    exact hp
  refine ⟨specRebucket o.all t1, specRebucket o.all t2, ?_, ?_, ?_, ?_, hs, hb, hlen t1, hlen t2⟩
  · rw [applyLiveThreshold_eq t1 st o h]
  · rw [applyLiveThreshold_eq t2 st o h]
  · exact fun r hr => hs.subset hr
  · exact fun r hr => hb.subset hr

/-- Instance of C22 on the three-record page at thresholds 50 and 70: sharp shrinks from
`b, c` to `b`, blurry grows from `a` to `a, c`, and both views hold three records. -/
theorem applyLiveThreshold_monotone_witness :
    (applyLiveThreshold 50 triplePage).results =
      some { sharp := [recB, recC], blurry := [recA] } ∧
    (applyLiveThreshold 70 triplePage).results =
      some { sharp := [recB], blurry := [recA, recC] } ∧
    triplePage.original = some { sharp := [recA], blurry := [recB, recC] } ∧
    (50 : Int) ≤ 70 ∧
    ∃ v1 v2, (applyLiveThreshold 50 triplePage).results = some v1 ∧
      (applyLiveThreshold 70 triplePage).results = some v2 ∧
      (∀ r ∈ v2.sharp, r ∈ v1.sharp) ∧ (∀ r ∈ v1.blurry, r ∈ v2.blurry) ∧
      List.Sublist v2.sharp v1.sharp ∧ List.Sublist v1.blurry v2.blurry ∧
      v1.sharp.length + v1.blurry.length = [recA].length + [recB, recC].length ∧
      v2.sharp.length + v2.blurry.length = [recA].length + [recB, recC].length :=
  ⟨by decide, by decide, rfl, by decide,
    applyLiveThreshold_monotone triplePage { sharp := [recA], blurry := [recB, recC] } 50 70
      rfl (by decide)⟩

end CullAI
